import Mathlib

/-!
Verification of the N64 ROM ingestion and metadata-resolution pipeline
(`src/support/n64/n64.cpp`) against its natural-language specification.

The C code is shallowly embedded: byte buffers become `List Nat` (each element
a byte value), C strings become Lean `String`s (ASCII; the database files and
tag tokens are ASCII text) or `List Nat` when raw header bytes are involved,
machine integers become `Nat` with explicit `% 2^64` where the C type wraps,
and every externally visible side effect (status-register writes, byte-sink
forwarding, progress and notification calls) is reified as an `Event` in the
order the C code performs it.  The MD5 hash implementation itself lives in
`lib/md5/md5.h`, outside the sources under verification, so the hash context
is modelled from the spec (see `MD5Context` below); everything else is
translated directly from `n64.cpp`.
-/

namespace N64

/-- FNV prime, `n64.cpp` line 14. -/
def FNV_PRIME : Nat := 0x100000001b3

/-- FNV offset basis, `n64.cpp` line 15. -/
def FNV_OFFSET_BASIS : Nat := 0xcbf29ce484222325

/-- `fnv_hash` (`n64.cpp` lines 17-21): iterates over the bytes of a C string
up to (excluding) the first NUL byte; 64-bit arithmetic wraps. -/
def fnv_hash (s : List Nat) : Nat :=
  (s.takeWhile (· ≠ 0)).foldl (fun h a => ((h ^^^ a) * FNV_PRIME) % 2 ^ 64) FNV_OFFSET_BASIS

/-- Bytes of an ASCII Lean string, as a C string (no embedded NULs). -/
def strBytes (s : String) : List Nat := s.data.map Char.toNat

/-- `fnv_hash` applied to a string literal, as in the `constexpr` case labels. -/
def fnvLit (s : String) : Nat := fnv_hash (strBytes s)

/-- `MemoryType` (`n64.cpp` lines 23-31); `toNat` gives the C enum value. -/
inductive MemoryType
  | NONE | EEPROM_512 | EEPROM_2k | SRAM_32k | SRAM_96k | FLASH_128k
deriving DecidableEq

def MemoryType.toNat : MemoryType → Nat
  | .NONE => 0 | .EEPROM_512 => 1 | .EEPROM_2k => 2
  | .SRAM_32k => 3 | .SRAM_96k => 4 | .FLASH_128k => 5

/-- `CIC` (`n64.cpp` lines 33-49); `toNat` gives the C enum value. -/
inductive CIC
  | CIC_NUS_6101 | CIC_NUS_6102 | CIC_NUS_7101 | CIC_NUS_7102
  | CIC_NUS_6103 | CIC_NUS_7103 | CIC_NUS_6105 | CIC_NUS_7105
  | CIC_NUS_6106 | CIC_NUS_7106 | CIC_NUS_8303 | CIC_NUS_8401
  | CIC_NUS_5167 | CIC_NUS_DDUS
deriving DecidableEq

def CIC.toNat : CIC → Nat
  | .CIC_NUS_6101 => 0 | .CIC_NUS_6102 => 1 | .CIC_NUS_7101 => 2 | .CIC_NUS_7102 => 3
  | .CIC_NUS_6103 => 4 | .CIC_NUS_7103 => 5 | .CIC_NUS_6105 => 6 | .CIC_NUS_7105 => 7
  | .CIC_NUS_6106 => 8 | .CIC_NUS_7106 => 9 | .CIC_NUS_8303 => 10 | .CIC_NUS_8401 => 11
  | .CIC_NUS_5167 => 12 | .CIC_NUS_DDUS => 13

/-- `SystemType` (`n64.cpp` lines 51-55). -/
inductive SystemType
  | NTSC | PAL
deriving DecidableEq

def SystemType.toNat : SystemType → Nat
  | .NTSC => 0 | .PAL => 1

/-- `RomFormat` (`n64.cpp` lines 57-63). -/
inductive RomFormat
  | UNKNOWN | BIG_ENDIAN_FMT | BYTE_SWAPPED | LITTLE_ENDIAN_FMT
deriving DecidableEq

/-- `AutoDetect` (`n64.cpp` lines 65-69): the external auto-detect flag. -/
inductive AutoDetect
  | ON | OFF
deriving DecidableEq

/-- Read a 32-bit little-endian value at byte offset `i` of a buffer, as the C
code does on its little-endian host via `*(uint32_t*)`. -/
def le32 (l : List Nat) (i : Nat) : Nat :=
  l.getD i 0 + 256 * l.getD (i + 1) 0 + 65536 * l.getD (i + 2) 0 +
    16777216 * l.getD (i + 3) 0

/-- `detectRomFormat` (`n64.cpp` lines 71-83): classify the first 4 bytes. -/
def detectRomFormat (data : List Nat) : RomFormat :=
  let val := le32 data 0
  if val = 0x40123780 ∨ val = 0x40072780 then RomFormat.BIG_ENDIAN_FMT
  else if val = 0x12408037 ∨ val = 0x07408027 then RomFormat.BYTE_SWAPPED
  else if val = 0x80371240 ∨ val = 0x80270740 then RomFormat.LITTLE_ENDIAN_FMT
  else RomFormat.UNKNOWN

/-- The 2-byte step of `normalizeData` for `BYTE_SWAPPED` (`n64.cpp` lines
89-98): swap every adjacent pair.  The C loop assumes an even byte count (the
final 1-byte leftover would be an out-of-bounds access); the leftover case
below is the identity. -/
def swapPairs : List Nat → List Nat
  | a :: b :: rest => b :: a :: swapPairs rest
  | rest => rest

/-- The 4-byte step of `normalizeData` for `LITTLE_ENDIAN` (`n64.cpp` lines
99-111): reverse every 4-byte group.  The C loop assumes a byte count that is
a multiple of 4; a shorter leftover is left unchanged here. -/
def rev4 : List Nat → List Nat
  | a :: b :: c :: d :: rest => d :: c :: b :: a :: rev4 rest
  | rest => rest

/-- `normalizeData` (`n64.cpp` lines 85-118). -/
def normalizeData (format : RomFormat) (data : List Nat) : List Nat :=
  match format with
  | RomFormat.BYTE_SWAPPED => swapPairs data
  | RomFormat.LITTLE_ENDIAN_FMT => rev4 data
  | _ => data

/-- Byte-group granularity of each transform (spec §4.2). -/
def granularity : RomFormat → Nat
  | RomFormat.BYTE_SWAPPED => 2
  | RomFormat.LITTLE_ENDIAN_FMT => 4
  | _ => 1

/-- C `tolower` in the C locale: only `'A'..'Z'` are mapped. -/
def toLowerCh (c : Char) : Char :=
  if 'A' ≤ c ∧ c ≤ 'Z' then Char.ofNat (c.toNat + 32) else c

/-- `normalizeString` (`n64.cpp` lines 120-124) on the character list of a C
string: lower-case in place. -/
def normalizeChars (s : List Char) : List Char := s.map toLowerCh

/-- `normalizeString` on a Lean string. -/
def normalizeString (s : String) : String := ⟨normalizeChars s.data⟩

/-- `fnv_hash` of a character list. -/
def fnvChars (s : List Char) : Nat := fnv_hash (s.map Char.toNat)

/-- `fnv_hash` of a Lean string's bytes. -/
def fnvStr (s : String) : Nat := fnv_hash (strBytes s)

/-- The configuration profile assembled by either resolution path:
save type, system type, CIC and the four peripheral flags. -/
structure Profile where
  save_type : MemoryType
  system_type : SystemType
  cic : CIC
  cpak : Bool
  rpak : Bool
  tpak : Bool
  rtc : Bool
deriving DecidableEq

/-- Defaults of the database path (`n64.cpp` lines 156-162). -/
def dbDefaultProfile : Profile :=
  { save_type := MemoryType.NONE, system_type := SystemType.NTSC,
    cic := CIC.CIC_NUS_6102, cpak := false, rpak := false, tpak := false, rtc := false }

/-- One externally visible side effect of the pipeline, in program order. -/
inductive Event
  | setIndex (i : Nat)          -- user_io_set_index
  | setDownload (v : Nat)       -- user_io_set_download
  | progress                    -- ProgressMessage
  | processSS                   -- process_ss (save-state processing)
  | statusSet (field : String) (value : Nat)  -- user_io_status_set
  | txData (bytes : List Nat)   -- user_io_file_tx_data
  | fileMount                   -- user_io_file_mount
  | info (variant : Nat)        -- Info(...): 1 = unknown CIC, 2 = unknown cart id
deriving DecidableEq

def isStatusSet : Event → Bool
  | Event.statusSet _ _ => true
  | _ => false

def isInfo : Event → Bool
  | Event.info _ => true
  | _ => false

def isTxData : Event → Bool
  | Event.txData _ => true
  | _ => false

/-- `user_io_status_set` events for one field name. -/
def isFieldSet (f : String) : Event → Bool
  | Event.statusSet g _ => g = f
  | _ => false

def statusEvents (es : List Event) : List Event := es.filter isStatusSet

def infoEvents (es : List Event) : List Event := es.filter isInfo

def txEvents (es : List Event) : List Event := es.filter isTxData

/-- The effect of one (already tokenized) tag on the profile: the `switch`
over `fnv_hash(tag)` in `detect_rom_settings_in_db` (`n64.cpp` lines
166-199).  The tag is lower-cased first; an unrecognized tag only produces a
diagnostic and leaves the profile unchanged.  Note the source's case label
`fnv_hash("cicDDUS")` hashes a mixed-case literal. -/
def tagEffect (p : Profile) (tag : List Char) : Profile :=
  let h := fnvChars (normalizeChars tag)
  if h = fnvLit "eeprom512" then { p with save_type := MemoryType.EEPROM_512 }
  else if h = fnvLit "eeprom2k" then { p with save_type := MemoryType.EEPROM_2k }
  else if h = fnvLit "sram32k" then { p with save_type := MemoryType.SRAM_32k }
  else if h = fnvLit "sram96k" then { p with save_type := MemoryType.SRAM_96k }
  else if h = fnvLit "flash128k" then { p with save_type := MemoryType.FLASH_128k }
  else if h = fnvLit "ntsc" then { p with system_type := SystemType.NTSC }
  else if h = fnvLit "pal" then { p with system_type := SystemType.PAL }
  else if h = fnvLit "cpak" then { p with cpak := true }
  else if h = fnvLit "rpak" then { p with rpak := true }
  else if h = fnvLit "tpak" then { p with tpak := true }
  else if h = fnvLit "rtc" then { p with rtc := true }
  else if h = fnvLit "cic6101" then { p with cic := CIC.CIC_NUS_6101 }
  else if h = fnvLit "cic6102" then { p with cic := CIC.CIC_NUS_6102 }
  else if h = fnvLit "cic6103" then { p with cic := CIC.CIC_NUS_6103 }
  else if h = fnvLit "cic6105" then { p with cic := CIC.CIC_NUS_6105 }
  else if h = fnvLit "cic6106" then { p with cic := CIC.CIC_NUS_6106 }
  else if h = fnvLit "cic7101" then { p with cic := CIC.CIC_NUS_7101 }
  else if h = fnvLit "cic7102" then { p with cic := CIC.CIC_NUS_7102 }
  else if h = fnvLit "cic7103" then { p with cic := CIC.CIC_NUS_7103 }
  else if h = fnvLit "cic7105" then { p with cic := CIC.CIC_NUS_7105 }
  else if h = fnvLit "cic7106" then { p with cic := CIC.CIC_NUS_7106 }
  else if h = fnvLit "cic8303" then { p with cic := CIC.CIC_NUS_8303 }
  else if h = fnvLit "cic8401" then { p with cic := CIC.CIC_NUS_8401 }
  else if h = fnvLit "cic5167" then { p with cic := CIC.CIC_NUS_5167 }
  else if h = fnvLit "cicDDUS" then { p with cic := CIC.CIC_NUS_DDUS }
  else p

/-- `isspace` characters recognized by `sscanf`'s `%s` conversions. -/
def isSpaceCh (c : Char) : Bool :=
  c = ' ' ∨ c = '\t' ∨ c = '\n' ∨ c = '\r' ∨ c.toNat = 11 ∨ c.toNat = 12

/-- Split a character list at every character satisfying `p`; the separator
characters are dropped and the (possibly empty) segments between them are
kept, as C tokenizers see them. -/
def splitChars (p : Char → Bool) : List Char → List (List Char)
  | [] => [[]]
  | c :: rest =>
    match splitChars p rest with
    | [] => if p c then [[], []] else [[c]]
    | seg :: segs => if p c then [] :: seg :: segs else (c :: seg) :: segs

/-- Whitespace-delimited tokens of a line, as `sscanf` scans them. -/
def lineTokens (line : String) : List (List Char) :=
  (splitChars isSpaceCh line.data).filter (· ≠ [])

/-- `sscanf(line, "%*s %s", tags)` (`n64.cpp` line 148): skip the first
whitespace-delimited token, read the second; `none` when there is no second
token (sscanf result ≠ 1). -/
def parseTags (line : String) : Option (List Char) := (lineTokens line).get? 1

/-- `strtok(tags, "|")` loop: the `|`-separated tokens, empty ones skipped. -/
def splitTags (tags : List Char) : List (List Char) :=
  (splitChars (fun c => c = '|') tags).filter (· ≠ [])

/-- `strncmp(lookup_hash, line, 32) == 0` for NUL-free strings. -/
def hashPrefixMatches (lookup_hash line : String) : Bool :=
  lookup_hash.data.take 32 = line.data.take 32

/-- The seven `user_io_status_set` calls of the database path (`n64.cpp`
lines 210-216), in order. -/
def profileWrites (p : Profile) : List Event :=
  [Event.statusSet "[80:79]" p.system_type.toNat,
   Event.statusSet "[68:65]" p.cic.toNat,
   Event.statusSet "[71]" (cond p.cpak 1 0),
   Event.statusSet "[72]" (cond p.rpak 1 0),
   Event.statusSet "[73]" (cond p.tpak 1 0),
   Event.statusSet "[74]" (cond p.rtc 1 0),
   Event.statusSet "[77:75]" p.save_type.toNat]

/-- `detect_rom_settings_in_db` (`n64.cpp` lines 126-227) over one database
source, modelled as its list of text lines (a file that fails to open behaves
exactly like one with no matching line).  Returns whether a record matched,
together with the external writes performed.  A line whose first 32
characters match but which has no tag field is skipped (`continue`), exactly
as in the source. -/
def detect_rom_settings_in_db (lookup_hash : String) (lines : List String)
    (auto_detect : AutoDetect) : Bool × List Event :=
  match lines with
  | [] => (false, [])
  | line :: rest =>
    if hashPrefixMatches lookup_hash line then
      match parseTags line with
      | none => detect_rom_settings_in_db lookup_hash rest auto_detect
      | some tags =>
        let p := (splitTags tags).foldl tagEffect dbDefaultProfile
        if auto_detect = AutoDetect.ON then (true, profileWrites p) else (true, [])
    else detect_rom_settings_in_db lookup_hash rest auto_detect

/-- `detect_rom_settings_in_dbs` (`n64.cpp` lines 235-243): query the sources
in precedence order, stopping at the first that reports a match. -/
def detect_rom_settings_in_dbs (lookup_hash : String) (dbs : List (List String))
    (auto_detect : AutoDetect) : Bool × List Event :=
  match dbs with
  | [] => (false, [])
  | db :: rest =>
    let r := detect_rom_settings_in_db lookup_hash db auto_detect
    if r.1 then r else detect_rom_settings_in_dbs lookup_hash rest auto_detect

end N64

namespace N64

/-- The region-code switch of `detect_rom_settings_from_first_chunk`
(`n64.cpp` lines 263-277): these letter codes select PAL, all others NTSC. -/
def regionSystemType (region_code : Nat) : SystemType :=
  if region_code = 68 ∨ region_code = 70 ∨ region_code = 72 ∨ region_code = 73 ∨
     region_code = 76 ∨ region_code = 80 ∨ region_code = 83 ∨ region_code = 85 ∨
     region_code = 87 ∨ region_code = 88 ∨ region_code = 89 then
    SystemType.PAL
  else SystemType.NTSC

/-- The IPL3 checksum switch (`n64.cpp` lines 280-309): maps the 64-bit boot
checksum to a CIC variant, possibly overriding the region-derived system
type; `none` is the `default: return 1` (unknown CIC) branch. -/
def cicLookup (crc : Nat) (system_type : SystemType) : Option (CIC × SystemType) :=
  if crc = 0x000000a316adc55a ∨ crc = 0x000000039c981107 ∨ crc = 0x000000a30dacd530 ∨
     crc = 0x000000d2828281b0 ∨ crc = 0x0000009acc31e644 then
    some (if system_type = SystemType.NTSC then CIC.CIC_NUS_6102 else CIC.CIC_NUS_7101,
          system_type)
  else if crc = 0x000000a405397b05 then some (CIC.CIC_NUS_7102, SystemType.PAL)
  else if crc = 0x000000a0f26f62fe then some (CIC.CIC_NUS_6101, SystemType.NTSC)
  else if crc = 0x000000a9229d7c45 then
    some (if system_type = SystemType.NTSC then CIC.CIC_NUS_6103 else CIC.CIC_NUS_7103,
          system_type)
  else if crc = 0x000000f8b860ed00 then
    some (if system_type = SystemType.NTSC then CIC.CIC_NUS_6105 else CIC.CIC_NUS_7105,
          system_type)
  else if crc = 0x000000ba5ba4b8cd then
    some (if system_type = SystemType.NTSC then CIC.CIC_NUS_6106 else CIC.CIC_NUS_7106,
          system_type)
  else if crc = 0x0000012daafc8aab then some (CIC.CIC_NUS_5167, system_type)
  else if crc = 0x000000a9df4b39e1 then some (CIC.CIC_NUS_8303, system_type)
  else if crc = 0x000000aa764e39e1 then some (CIC.CIC_NUS_8401, system_type)
  else if crc = 0x000000abb0b739e1 then some (CIC.CIC_NUS_DDUS, system_type)
  else none

/-- The two `user_io_status_set` calls made right after a successful CIC
lookup (`n64.cpp` lines 314-315). -/
def stCicWrites (system_type : SystemType) (cic : CIC) : List Event :=
  [Event.statusSet "[80:79]" system_type.toNat,
   Event.statusSet "[68:65]" cic.toNat]

/-- The five `user_io_status_set` calls of the heuristic success epilogue
(`n64.cpp` lines 801-805). -/
def peripheralWrites (p : Profile) : List Event :=
  [Event.statusSet "[71]" (cond p.cpak 1 0),
   Event.statusSet "[72]" (cond p.rpak 1 0),
   Event.statusSet "[73]" (cond p.tpak 1 0),
   Event.statusSet "[74]" (cond p.rtc 1 0),
   Event.statusSet "[77:75]" p.save_type.toNat]

/-- Cartridge-identifier table, part 1 of 8 (simple single-line
`case` entries of `n64.cpp` lines 317-720, in source order). -/
def cartIdTableA (h : Nat) (p : Profile) : Option Profile :=
  if h = fnvLit "NTW" then some { p with save_type := MemoryType.EEPROM_512, cpak := true }
  else if h = fnvLit "NHF" then some { p with save_type := MemoryType.EEPROM_512 }
  else if h = fnvLit "NOS" then some { p with save_type := MemoryType.EEPROM_512, cpak := true, rpak := true }
  else if h = fnvLit "NTC" then some { p with save_type := MemoryType.EEPROM_512, rpak := true }
  else if h = fnvLit "NER" then some { p with save_type := MemoryType.EEPROM_512, rpak := true }
  else if h = fnvLit "NAG" then some { p with save_type := MemoryType.EEPROM_512, cpak := true }
  else if h = fnvLit "NAB" then some { p with save_type := MemoryType.EEPROM_512, cpak := true, rpak := true }
  else if h = fnvLit "NS3" then some { p with save_type := MemoryType.EEPROM_512, cpak := true }
  else if h = fnvLit "NTN" then some { p with save_type := MemoryType.EEPROM_512 }
  else if h = fnvLit "NBN" then some { p with save_type := MemoryType.EEPROM_512, cpak := true }
  else if h = fnvLit "NBK" then some { p with save_type := MemoryType.EEPROM_512, rpak := true }
  else if h = fnvLit "NFH" then some { p with save_type := MemoryType.EEPROM_512, rpak := true }
  else if h = fnvLit "NMU" then some { p with save_type := MemoryType.EEPROM_512, cpak := true, rpak := true }
  else if h = fnvLit "NBC" then some { p with save_type := MemoryType.EEPROM_512, cpak := true }
  else if h = fnvLit "NBH" then some { p with save_type := MemoryType.EEPROM_512, rpak := true }
  else if h = fnvLit "NHA" then some { p with save_type := MemoryType.EEPROM_512, cpak := true }
  else if h = fnvLit "NBM" then some { p with save_type := MemoryType.EEPROM_512, cpak := true }
  else if h = fnvLit "NBV" then some { p with save_type := MemoryType.EEPROM_512, cpak := true, rpak := true }
  else if h = fnvLit "NBD" then some { p with save_type := MemoryType.EEPROM_512, rpak := true }
  else if h = fnvLit "NCT" then some { p with save_type := MemoryType.EEPROM_512, rpak := true }
  else if h = fnvLit "NCH" then some { p with save_type := MemoryType.EEPROM_512, rpak := true }
  else if h = fnvLit "NCG" then some { p with save_type := MemoryType.EEPROM_512, cpak := true, rpak := true, tpak := true }
  else if h = fnvLit "NP2" then some { p with save_type := MemoryType.EEPROM_512, cpak := true, rpak := true }
  else if h = fnvLit "NXO" then some { p with save_type := MemoryType.EEPROM_512, rpak := true }
  else if h = fnvLit "NCU" then some { p with save_type := MemoryType.EEPROM_512, cpak := true }
  else if h = fnvLit "NCX" then some { p with save_type := MemoryType.EEPROM_512 }
  else if h = fnvLit "NDY" then some { p with save_type := MemoryType.EEPROM_512, cpak := true, rpak := true }
  else if h = fnvLit "NDQ" then some { p with save_type := MemoryType.EEPROM_512, cpak := true }
  else if h = fnvLit "NDR" then some { p with save_type := MemoryType.EEPROM_512 }
  else if h = fnvLit "NN6" then some { p with save_type := MemoryType.EEPROM_512 }
  else if h = fnvLit "NDU" then some { p with save_type := MemoryType.EEPROM_512, rpak := true }
  else if h = fnvLit "NJM" then some { p with save_type := MemoryType.EEPROM_512 }
  else if h = fnvLit "NFW" then some { p with save_type := MemoryType.EEPROM_512, rpak := true }
  else if h = fnvLit "NF2" then some { p with save_type := MemoryType.EEPROM_512, rpak := true }
  else if h = fnvLit "NKA" then some { p with save_type := MemoryType.EEPROM_512, cpak := true, rpak := true }
  else if h = fnvLit "NFG" then some { p with save_type := MemoryType.EEPROM_512, cpak := true, rpak := true }
  else if h = fnvLit "NGL" then some { p with save_type := MemoryType.EEPROM_512, cpak := true, rpak := true }
  else if h = fnvLit "NGV" then some { p with save_type := MemoryType.EEPROM_512 }
  else if h = fnvLit "NGE" then some { p with save_type := MemoryType.EEPROM_512, rpak := true }
  else if h = fnvLit "NHP" then some { p with save_type := MemoryType.EEPROM_512 }
  else if h = fnvLit "NPG" then some { p with save_type := MemoryType.EEPROM_512, rpak := true }
  else if h = fnvLit "NIJ" then some { p with save_type := MemoryType.EEPROM_512, rpak := true }
  else if h = fnvLit "NIC" then some { p with save_type := MemoryType.EEPROM_512, rpak := true }
  else if h = fnvLit "NFY" then some { p with save_type := MemoryType.EEPROM_512, cpak := true, rpak := true }
  else if h = fnvLit "NKI" then some { p with save_type := MemoryType.EEPROM_512, cpak := true }
  else if h = fnvLit "NLL" then some { p with save_type := MemoryType.EEPROM_512, rpak := true }
  else if h = fnvLit "NLR" then some { p with save_type := MemoryType.EEPROM_512, rpak := true }
  else if h = fnvLit "NKT" then some { p with save_type := MemoryType.EEPROM_512, cpak := true }
  else if h = fnvLit "CLB" then some { p with save_type := MemoryType.EEPROM_512, rpak := true }
  else if h = fnvLit "NLB" then some { p with save_type := MemoryType.EEPROM_512, rpak := true }
  else none

/-- Cartridge-identifier table, part 2 of 8 (simple single-line
`case` entries of `n64.cpp` lines 317-720, in source order). -/
def cartIdTableB (h : Nat) (p : Profile) : Option Profile :=
  if h = fnvLit "NMW" then some { p with save_type := MemoryType.EEPROM_512, rpak := true }
  else if h = fnvLit "NML" then some { p with save_type := MemoryType.EEPROM_512, rpak := true, tpak := true }
  else if h = fnvLit "NTM" then some { p with save_type := MemoryType.EEPROM_512 }
  else if h = fnvLit "NMI" then some { p with save_type := MemoryType.EEPROM_512, rpak := true }
  else if h = fnvLit "NMG" then some { p with save_type := MemoryType.EEPROM_512, cpak := true, rpak := true }
  else if h = fnvLit "NMO" then some { p with save_type := MemoryType.EEPROM_512 }
  else if h = fnvLit "NMS" then some { p with save_type := MemoryType.EEPROM_512, cpak := true }
  else if h = fnvLit "NMR" then some { p with save_type := MemoryType.EEPROM_512, cpak := true, rpak := true }
  else if h = fnvLit "NCR" then some { p with save_type := MemoryType.EEPROM_512, cpak := true }
  else if h = fnvLit "NEA" then some { p with save_type := MemoryType.EEPROM_512 }
  else if h = fnvLit "NPW" then some { p with save_type := MemoryType.EEPROM_512 }
  else if h = fnvLit "NPY" then some { p with save_type := MemoryType.EEPROM_512, rpak := true }
  else if h = fnvLit "NPT" then some { p with save_type := MemoryType.EEPROM_512, rpak := true, tpak := true }
  else if h = fnvLit "NRA" then some { p with save_type := MemoryType.EEPROM_512, cpak := true, rpak := true }
  else if h = fnvLit "NWQ" then some { p with save_type := MemoryType.EEPROM_512, cpak := true, rpak := true }
  else if h = fnvLit "NSU" then some { p with save_type := MemoryType.EEPROM_512, rpak := true }
  else if h = fnvLit "NSN" then some { p with save_type := MemoryType.EEPROM_512, cpak := true, rpak := true }
  else if h = fnvLit "NK2" then some { p with save_type := MemoryType.EEPROM_512, rpak := true }
  else if h = fnvLit "NSV" then some { p with save_type := MemoryType.EEPROM_512, rpak := true }
  else if h = fnvLit "NFX" then some { p with save_type := MemoryType.EEPROM_512, rpak := true }
  else if h = fnvLit "NS6" then some { p with save_type := MemoryType.EEPROM_512, rpak := true }
  else if h = fnvLit "NNA" then some { p with save_type := MemoryType.EEPROM_512, rpak := true }
  else if h = fnvLit "NRS" then some { p with save_type := MemoryType.EEPROM_512, rpak := true }
  else if h = fnvLit "NSW" then some { p with save_type := MemoryType.EEPROM_512 }
  else if h = fnvLit "NSC" then some { p with save_type := MemoryType.EEPROM_512 }
  else if h = fnvLit "NSA" then some { p with save_type := MemoryType.EEPROM_512, rpak := true }
  else if h = fnvLit "NB6" then some { p with save_type := MemoryType.EEPROM_512, cpak := true, tpak := true }
  else if h = fnvLit "NSS" then some { p with save_type := MemoryType.EEPROM_512, rpak := true }
  else if h = fnvLit "NTX" then some { p with save_type := MemoryType.EEPROM_512, rpak := true }
  else if h = fnvLit "NT6" then some { p with save_type := MemoryType.EEPROM_512 }
  else if h = fnvLit "NTP" then some { p with save_type := MemoryType.EEPROM_512 }
  else if h = fnvLit "NTJ" then some { p with save_type := MemoryType.EEPROM_512, rpak := true }
  else if h = fnvLit "NRC" then some { p with save_type := MemoryType.EEPROM_512, rpak := true }
  else if h = fnvLit "NTR" then some { p with save_type := MemoryType.EEPROM_512, cpak := true, rpak := true }
  else if h = fnvLit "NTB" then some { p with save_type := MemoryType.EEPROM_512, rpak := true }
  else if h = fnvLit "NGU" then some { p with save_type := MemoryType.EEPROM_512, rpak := true }
  else if h = fnvLit "NIR" then some { p with save_type := MemoryType.EEPROM_512, rpak := true }
  else if h = fnvLit "NVL" then some { p with save_type := MemoryType.EEPROM_512, rpak := true }
  else if h = fnvLit "NVY" then some { p with save_type := MemoryType.EEPROM_512, rpak := true }
  else if h = fnvLit "NWC" then some { p with save_type := MemoryType.EEPROM_512, rpak := true }
  else if h = fnvLit "NAD" then some { p with save_type := MemoryType.EEPROM_512 }
  else if h = fnvLit "NWU" then some { p with save_type := MemoryType.EEPROM_512 }
  else if h = fnvLit "NYK" then some { p with save_type := MemoryType.EEPROM_512, rpak := true }
  else if h = fnvLit "NMZ" then some { p with save_type := MemoryType.EEPROM_512 }
  else if h = fnvLit "NB7" then some { p with save_type := MemoryType.EEPROM_2k, rpak := true }
  else if h = fnvLit "NGT" then some { p with save_type := MemoryType.EEPROM_2k, cpak := true, rpak := true }
  else if h = fnvLit "NFU" then some { p with save_type := MemoryType.EEPROM_2k, rpak := true }
  else if h = fnvLit "NCW" then some { p with save_type := MemoryType.EEPROM_2k, rpak := true }
  else if h = fnvLit "NCZ" then some { p with save_type := MemoryType.EEPROM_2k, rpak := true }
  else if h = fnvLit "ND6" then some { p with save_type := MemoryType.EEPROM_2k, rpak := true }
  else none

/-- Cartridge-identifier table, part 3 of 8 (simple single-line
`case` entries of `n64.cpp` lines 317-720, in source order). -/
def cartIdTableC (h : Nat) (p : Profile) : Option Profile :=
  if h = fnvLit "NDO" then some { p with save_type := MemoryType.EEPROM_2k, rpak := true }
  else if h = fnvLit "ND2" then some { p with save_type := MemoryType.EEPROM_2k, rpak := true }
  else if h = fnvLit "N3D" then some { p with save_type := MemoryType.EEPROM_2k, rpak := true }
  else if h = fnvLit "NMX" then some { p with save_type := MemoryType.EEPROM_2k, cpak := true, rpak := true }
  else if h = fnvLit "NGC" then some { p with save_type := MemoryType.EEPROM_2k, cpak := true, rpak := true }
  else if h = fnvLit "NIM" then some { p with save_type := MemoryType.EEPROM_2k }
  else if h = fnvLit "NNB" then some { p with save_type := MemoryType.EEPROM_2k, cpak := true, rpak := true }
  else if h = fnvLit "NMV" then some { p with save_type := MemoryType.EEPROM_2k, rpak := true }
  else if h = fnvLit "NM8" then some { p with save_type := MemoryType.EEPROM_2k, rpak := true, tpak := true }
  else if h = fnvLit "NEV" then some { p with save_type := MemoryType.EEPROM_2k, rpak := true }
  else if h = fnvLit "NPP" then some { p with save_type := MemoryType.EEPROM_2k, cpak := true }
  else if h = fnvLit "NUB" then some { p with save_type := MemoryType.EEPROM_2k, cpak := true, tpak := true }
  else if h = fnvLit "NPD" then some { p with save_type := MemoryType.EEPROM_2k, cpak := true, rpak := true, tpak := true }
  else if h = fnvLit "NRZ" then some { p with save_type := MemoryType.EEPROM_2k, rpak := true }
  else if h = fnvLit "NR7" then some { p with save_type := MemoryType.EEPROM_2k, tpak := true }
  else if h = fnvLit "NEP" then some { p with save_type := MemoryType.EEPROM_2k, rpak := true }
  else if h = fnvLit "NYS" then some { p with save_type := MemoryType.EEPROM_2k, rpak := true }
  else if h = fnvLit "NTE" then some { p with save_type := MemoryType.SRAM_32k, rpak := true }
  else if h = fnvLit "NVB" then some { p with save_type := MemoryType.SRAM_32k, rpak := true }
  else if h = fnvLit "NB5" then some { p with save_type := MemoryType.SRAM_32k, rpak := true }
  else if h = fnvLit "CFZ" then some { p with save_type := MemoryType.SRAM_32k, rpak := true }
  else if h = fnvLit "NFZ" then some { p with save_type := MemoryType.SRAM_32k, rpak := true }
  else if h = fnvLit "NSI" then some { p with save_type := MemoryType.SRAM_32k, cpak := true }
  else if h = fnvLit "NG6" then some { p with save_type := MemoryType.SRAM_32k, rpak := true }
  else if h = fnvLit "NGP" then some { p with save_type := MemoryType.SRAM_32k, cpak := true }
  else if h = fnvLit "NYW" then some { p with save_type := MemoryType.SRAM_32k, cpak := true }
  else if h = fnvLit "NHY" then some { p with save_type := MemoryType.SRAM_32k, cpak := true, rpak := true }
  else if h = fnvLit "NIB" then some { p with save_type := MemoryType.SRAM_32k, rpak := true }
  else if h = fnvLit "NPS" then some { p with save_type := MemoryType.SRAM_32k, cpak := true, rpak := true }
  else if h = fnvLit "NPA" then some { p with save_type := MemoryType.SRAM_32k, cpak := true, tpak := true }
  else if h = fnvLit "NP4" then some { p with save_type := MemoryType.SRAM_32k, cpak := true }
  else if h = fnvLit "NJ5" then some { p with save_type := MemoryType.SRAM_32k, cpak := true }
  else if h = fnvLit "NP6" then some { p with save_type := MemoryType.SRAM_32k, cpak := true, tpak := true }
  else if h = fnvLit "NPE" then some { p with save_type := MemoryType.SRAM_32k, cpak := true }
  else if h = fnvLit "NJG" then some { p with save_type := MemoryType.SRAM_32k, rpak := true }
  else if h = fnvLit "CZL" then some { p with save_type := MemoryType.SRAM_32k, rpak := true }
  else if h = fnvLit "NZL" then some { p with save_type := MemoryType.SRAM_32k, rpak := true }
  else if h = fnvLit "NKG" then some { p with save_type := MemoryType.SRAM_32k, cpak := true, rpak := true }
  else if h = fnvLit "NMF" then some { p with save_type := MemoryType.SRAM_32k, rpak := true, tpak := true }
  else if h = fnvLit "NRI" then some { p with save_type := MemoryType.SRAM_32k, cpak := true }
  else if h = fnvLit "NUT" then some { p with save_type := MemoryType.SRAM_32k, cpak := true, rpak := true, tpak := true }
  else if h = fnvLit "NUM" then some { p with save_type := MemoryType.SRAM_32k, rpak := true, tpak := true }
  else if h = fnvLit "NOB" then some { p with save_type := MemoryType.SRAM_32k }
  else if h = fnvLit "CPS" then some { p with save_type := MemoryType.SRAM_32k, tpak := true }
  else if h = fnvLit "NPM" then some { p with save_type := MemoryType.SRAM_32k, cpak := true }
  else if h = fnvLit "NRE" then some { p with save_type := MemoryType.SRAM_32k, rpak := true }
  else if h = fnvLit "NAL" then some { p with save_type := MemoryType.SRAM_32k, rpak := true }
  else if h = fnvLit "NT3" then some { p with save_type := MemoryType.SRAM_32k, cpak := true }
  else if h = fnvLit "NS4" then some { p with save_type := MemoryType.SRAM_32k, cpak := true, tpak := true }
  else if h = fnvLit "NA2" then some { p with save_type := MemoryType.SRAM_32k, cpak := true, rpak := true }
  else none

/-- Cartridge-identifier table, part 4 of 8 (simple single-line
`case` entries of `n64.cpp` lines 317-720, in source order). -/
def cartIdTableD (h : Nat) (p : Profile) : Option Profile :=
  if h = fnvLit "NVP" then some { p with save_type := MemoryType.SRAM_32k, cpak := true, rpak := true }
  else if h = fnvLit "NWL" then some { p with save_type := MemoryType.SRAM_32k, rpak := true }
  else if h = fnvLit "NW2" then some { p with save_type := MemoryType.SRAM_32k, rpak := true }
  else if h = fnvLit "NWX" then some { p with save_type := MemoryType.SRAM_32k, cpak := true, rpak := true }
  else if h = fnvLit "CDZ" then some { p with save_type := MemoryType.SRAM_96k, rpak := true }
  else if h = fnvLit "NCC" then some { p with save_type := MemoryType.FLASH_128k, rpak := true }
  else if h = fnvLit "NDA" then some { p with save_type := MemoryType.FLASH_128k, cpak := true }
  else if h = fnvLit "NAF" then some { p with save_type := MemoryType.FLASH_128k, cpak := true, rtc := true }
  else if h = fnvLit "NJF" then some { p with save_type := MemoryType.FLASH_128k, rpak := true }
  else if h = fnvLit "NKJ" then some { p with save_type := MemoryType.FLASH_128k, rpak := true }
  else if h = fnvLit "NZS" then some { p with save_type := MemoryType.FLASH_128k, rpak := true }
  else if h = fnvLit "NM6" then some { p with save_type := MemoryType.FLASH_128k, rpak := true }
  else if h = fnvLit "NCK" then some { p with save_type := MemoryType.FLASH_128k, rpak := true }
  else if h = fnvLit "NMQ" then some { p with save_type := MemoryType.FLASH_128k, rpak := true }
  else if h = fnvLit "NPN" then some { p with save_type := MemoryType.FLASH_128k }
  else if h = fnvLit "NPF" then some { p with save_type := MemoryType.FLASH_128k }
  else if h = fnvLit "NPO" then some { p with save_type := MemoryType.FLASH_128k, tpak := true }
  else if h = fnvLit "CP2" then some { p with save_type := MemoryType.FLASH_128k, tpak := true }
  else if h = fnvLit "NP3" then some { p with save_type := MemoryType.FLASH_128k, tpak := true }
  else if h = fnvLit "NRH" then some { p with save_type := MemoryType.FLASH_128k, rpak := true }
  else if h = fnvLit "NSQ" then some { p with save_type := MemoryType.FLASH_128k, rpak := true }
  else if h = fnvLit "NT9" then some { p with save_type := MemoryType.FLASH_128k }
  else if h = fnvLit "NW4" then some { p with save_type := MemoryType.FLASH_128k, cpak := true, rpak := true }
  else if h = fnvLit "NDP" then some { p with save_type := MemoryType.FLASH_128k }
  else if h = fnvLit "NO7" then some { p with cpak := true, rpak := true }
  else if h = fnvLit "NAY" then some { p with cpak := true }
  else if h = fnvLit "NBS" then some { p with cpak := true, rpak := true }
  else if h = fnvLit "NBE" then some { p with cpak := true, rpak := true }
  else if h = fnvLit "NAS" then some { p with cpak := true, rpak := true }
  else if h = fnvLit "NAR" then some { p with cpak := true, rpak := true }
  else if h = fnvLit "NAC" then some { p with cpak := true, rpak := true }
  else if h = fnvLit "NAM" then some { p with cpak := true, rpak := true }
  else if h = fnvLit "N32" then some { p with cpak := true, rpak := true }
  else if h = fnvLit "NAH" then some { p with cpak := true, rpak := true }
  else if h = fnvLit "NLC" then some { p with cpak := true, rpak := true }
  else if h = fnvLit "NBJ" then some { p with cpak := true }
  else if h = fnvLit "NB4" then some { p with cpak := true, rpak := true }
  else if h = fnvLit "NBX" then some { p with cpak := true, rpak := true }
  else if h = fnvLit "NBQ" then some { p with cpak := true, rpak := true }
  else if h = fnvLit "NZO" then some { p with cpak := true, rpak := true }
  else if h = fnvLit "NNS" then some { p with cpak := true, rpak := true }
  else if h = fnvLit "NB8" then some { p with cpak := true, rpak := true }
  else if h = fnvLit "NBF" then some { p with cpak := true, rpak := true }
  else if h = fnvLit "NBP" then some { p with cpak := true, rpak := true }
  else if h = fnvLit "NBO" then some { p with cpak := true }
  else if h = fnvLit "NOW" then some { p with cpak := true }
  else if h = fnvLit "NBL" then some { p with cpak := true, rpak := true }
  else if h = fnvLit "NBY" then some { p with cpak := true, rpak := true }
  else if h = fnvLit "NB3" then some { p with cpak := true, rpak := true }
  else if h = fnvLit "NBU" then some { p with cpak := true }
  else none

/-- Cartridge-identifier table, part 5 of 8 (simple single-line
`case` entries of `n64.cpp` lines 317-720, in source order). -/
def cartIdTableE (h : Nat) (p : Profile) : Option Profile :=
  if h = fnvLit "NCL" then some { p with cpak := true, rpak := true }
  else if h = fnvLit "NCD" then some { p with cpak := true, rpak := true }
  else if h = fnvLit "NTS" then some { p with cpak := true }
  else if h = fnvLit "NV2" then some { p with cpak := true, rpak := true }
  else if h = fnvLit "NPK" then some { p with cpak := true }
  else if h = fnvLit "NT4" then some { p with cpak := true, rpak := true }
  else if h = fnvLit "NDW" then some { p with cpak := true, rpak := true }
  else if h = fnvLit "NGA" then some { p with cpak := true, rpak := true }
  else if h = fnvLit "NDE" then some { p with cpak := true, rpak := true }
  else if h = fnvLit "NTA" then some { p with cpak := true, rpak := true }
  else if h = fnvLit "NDM" then some { p with cpak := true }
  else if h = fnvLit "NDH" then some { p with cpak := true }
  else if h = fnvLit "NDN" then some { p with cpak := true, rpak := true }
  else if h = fnvLit "NDZ" then some { p with cpak := true, rpak := true }
  else if h = fnvLit "NWI" then some { p with cpak := true, rpak := true }
  else if h = fnvLit "NST" then some { p with cpak := true }
  else if h = fnvLit "NET" then some { p with cpak := true }
  else if h = fnvLit "NEG" then some { p with cpak := true, rpak := true }
  else if h = fnvLit "NG2" then some { p with cpak := true, rpak := true }
  else if h = fnvLit "NHG" then some { p with cpak := true }
  else if h = fnvLit "NFR" then some { p with cpak := true, rpak := true }
  else if h = fnvLit "N8I" then some { p with cpak := true }
  else if h = fnvLit "N9F" then some { p with cpak := true }
  else if h = fnvLit "N7I" then some { p with cpak := true }
  else if h = fnvLit "NFS" then some { p with cpak := true }
  else if h = fnvLit "NFF" then some { p with cpak := true, rpak := true }
  else if h = fnvLit "NFD" then some { p with cpak := true, rpak := true }
  else if h = fnvLit "NFO" then some { p with cpak := true, rpak := true }
  else if h = fnvLit "NF9" then some { p with cpak := true }
  else if h = fnvLit "NG5" then some { p with cpak := true, rpak := true }
  else if h = fnvLit "NGX" then some { p with cpak := true, rpak := true }
  else if h = fnvLit "NGD" then some { p with cpak := true, rpak := true }
  else if h = fnvLit "NX3" then some { p with cpak := true, rpak := true }
  else if h = fnvLit "NX2" then some { p with cpak := true }
  else if h = fnvLit "NGM" then some { p with cpak := true, rpak := true }
  else if h = fnvLit "NGN" then some { p with cpak := true }
  else if h = fnvLit "NHS" then some { p with cpak := true }
  else if h = fnvLit "NM9" then some { p with cpak := true }
  else if h = fnvLit "NHC" then some { p with cpak := true, rpak := true }
  else if h = fnvLit "NHX" then some { p with cpak := true }
  else if h = fnvLit "NHK" then some { p with cpak := true, rpak := true }
  else if h = fnvLit "NHW" then some { p with cpak := true, rpak := true }
  else if h = fnvLit "NHV" then some { p with cpak := true, rpak := true }
  else if h = fnvLit "NHT" then some { p with cpak := true, rpak := true }
  else if h = fnvLit "NWB" then some { p with cpak := true, rpak := true }
  else if h = fnvLit "NWS" then some { p with cpak := true }
  else if h = fnvLit "NIS" then some { p with cpak := true, rpak := true }
  else if h = fnvLit "NJP" then some { p with cpak := true }
  else if h = fnvLit "NDS" then some { p with cpak := true }
  else if h = fnvLit "NJE" then some { p with cpak := true }
  else none

/-- Cartridge-identifier table, part 6 of 8 (simple single-line
`case` entries of `n64.cpp` lines 317-720, in source order). -/
def cartIdTableF (h : Nat) (p : Profile) : Option Profile :=
  if h = fnvLit "NJL" then some { p with cpak := true }
  else if h = fnvLit "NMA" then some { p with cpak := true }
  else if h = fnvLit "NCO" then some { p with cpak := true, rpak := true }
  else if h = fnvLit "NGS" then some { p with cpak := true }
  else if h = fnvLit "NJ3" then some { p with cpak := true }
  else if h = fnvLit "N64" then some { p with cpak := true, rpak := true }
  else if h = fnvLit "NKK" then some { p with cpak := true, rpak := true }
  else if h = fnvLit "NLG" then some { p with cpak := true, rpak := true }
  else if h = fnvLit "N8M" then some { p with cpak := true, rpak := true }
  else if h = fnvLit "NMD" then some { p with cpak := true, rpak := true }
  else if h = fnvLit "NFL" then some { p with cpak := true, rpak := true }
  else if h = fnvLit "N2M" then some { p with cpak := true, rpak := true }
  else if h = fnvLit "N9M" then some { p with cpak := true, rpak := true }
  else if h = fnvLit "NMJ" then some { p with cpak := true }
  else if h = fnvLit "NMM" then some { p with cpak := true }
  else if h = fnvLit "NHM" then some { p with cpak := true, rpak := true }
  else if h = fnvLit "NWK" then some { p with cpak := true, rpak := true }
  else if h = fnvLit "NV3" then some { p with cpak := true, rpak := true }
  else if h = fnvLit "NAI" then some { p with cpak := true }
  else if h = fnvLit "NMB" then some { p with cpak := true, rpak := true }
  else if h = fnvLit "NBR" then some { p with cpak := true, rpak := true }
  else if h = fnvLit "NM4" then some { p with cpak := true, rpak := true }
  else if h = fnvLit "NMY" then some { p with cpak := true, rpak := true }
  else if h = fnvLit "NP9" then some { p with cpak := true, rpak := true }
  else if h = fnvLit "NH5" then some { p with cpak := true }
  else if h = fnvLit "NNM" then some { p with cpak := true }
  else if h = fnvLit "N9C" then some { p with cpak := true, rpak := true }
  else if h = fnvLit "NN2" then some { p with cpak := true, rpak := true }
  else if h = fnvLit "NXG" then some { p with cpak := true }
  else if h = fnvLit "NBA" then some { p with cpak := true, rpak := true }
  else if h = fnvLit "NB2" then some { p with cpak := true, rpak := true }
  else if h = fnvLit "NWZ" then some { p with cpak := true, rpak := true }
  else if h = fnvLit "NB9" then some { p with cpak := true }
  else if h = fnvLit "NJA" then some { p with cpak := true, rpak := true }
  else if h = fnvLit "N9B" then some { p with cpak := true, rpak := true }
  else if h = fnvLit "NNL" then some { p with cpak := true, rpak := true }
  else if h = fnvLit "NSO" then some { p with cpak := true }
  else if h = fnvLit "NBZ" then some { p with cpak := true, rpak := true }
  else if h = fnvLit "NSZ" then some { p with cpak := true, rpak := true }
  else if h = fnvLit "NBI" then some { p with cpak := true, rpak := true }
  else if h = fnvLit "NFB" then some { p with cpak := true, rpak := true }
  else if h = fnvLit "NQ8" then some { p with cpak := true, rpak := true }
  else if h = fnvLit "NQ9" then some { p with cpak := true, rpak := true }
  else if h = fnvLit "NQB" then some { p with cpak := true, rpak := true }
  else if h = fnvLit "NQC" then some { p with cpak := true, rpak := true }
  else if h = fnvLit "N9H" then some { p with cpak := true, rpak := true }
  else if h = fnvLit "NHO" then some { p with cpak := true, rpak := true }
  else if h = fnvLit "NHL" then some { p with cpak := true, rpak := true }
  else if h = fnvLit "NH9" then some { p with cpak := true, rpak := true }
  else if h = fnvLit "NNC" then some { p with cpak := true, rpak := true }
  else none

/-- Cartridge-identifier table, part 7 of 8 (simple single-line
`case` entries of `n64.cpp` lines 317-720, in source order). -/
def cartIdTableG (h : Nat) (p : Profile) : Option Profile :=
  if h = fnvLit "NCE" then some { p with cpak := true, rpak := true }
  else if h = fnvLit "NOF" then some { p with cpak := true, rpak := true }
  else if h = fnvLit "NHN" then some { p with cpak := true }
  else if h = fnvLit "NOM" then some { p with cpak := true }
  else if h = fnvLit "NPC" then some { p with cpak := true }
  else if h = fnvLit "NYP" then some { p with cpak := true, rpak := true }
  else if h = fnvLit "NPX" then some { p with cpak := true, rpak := true }
  else if h = fnvLit "NPL" then some { p with cpak := true }
  else if h = fnvLit "NPU" then some { p with cpak := true }
  else if h = fnvLit "NKM" then some { p with cpak := true }
  else if h = fnvLit "NNR" then some { p with cpak := true }
  else if h = fnvLit "NPB" then some { p with cpak := true, rpak := true }
  else if h = fnvLit "NQK" then some { p with cpak := true, rpak := true }
  else if h = fnvLit "NQ2" then some { p with cpak := true, rpak := true }
  else if h = fnvLit "NKR" then some { p with cpak := true }
  else if h = fnvLit "NRP" then some { p with cpak := true, rpak := true }
  else if h = fnvLit "NRT" then some { p with cpak := true }
  else if h = fnvLit "NRX" then some { p with cpak := true }
  else if h = fnvLit "NY2" then some { p with cpak := true }
  else if h = fnvLit "NFQ" then some { p with cpak := true, rpak := true }
  else if h = fnvLit "NRV" then some { p with cpak := true, rpak := true }
  else if h = fnvLit "NRD" then some { p with cpak := true, rpak := true }
  else if h = fnvLit "N22" then some { p with cpak := true, rpak := true }
  else if h = fnvLit "NRO" then some { p with cpak := true, rpak := true }
  else if h = fnvLit "NRR" then some { p with cpak := true, rpak := true }
  else if h = fnvLit "NRK" then some { p with cpak := true }
  else if h = fnvLit "NR2" then some { p with cpak := true, rpak := true }
  else if h = fnvLit "NCS" then some { p with cpak := true, rpak := true }
  else if h = fnvLit "NDC" then some { p with cpak := true, rpak := true }
  else if h = fnvLit "NSH" then some { p with cpak := true }
  else if h = fnvLit "NSF" then some { p with cpak := true, rpak := true }
  else if h = fnvLit "NRU" then some { p with cpak := true, rpak := true }
  else if h = fnvLit "NSY" then some { p with cpak := true }
  else if h = fnvLit "NSD" then some { p with cpak := true, rpak := true }
  else if h = fnvLit "NSG" then some { p with cpak := true }
  else if h = fnvLit "NTO" then some { p with cpak := true }
  else if h = fnvLit "NS2" then some { p with cpak := true }
  else if h = fnvLit "NSK" then some { p with cpak := true, rpak := true }
  else if h = fnvLit "NDT" then some { p with cpak := true, rpak := true }
  else if h = fnvLit "NPR" then some { p with cpak := true, rpak := true }
  else if h = fnvLit "NIV" then some { p with cpak := true, rpak := true }
  else if h = fnvLit "NSL" then some { p with cpak := true, rpak := true }
  else if h = fnvLit "NR3" then some { p with cpak := true, rpak := true }
  else if h = fnvLit "NBW" then some { p with cpak := true, rpak := true }
  else if h = fnvLit "NSX" then some { p with cpak := true, rpak := true }
  else if h = fnvLit "NSP" then some { p with cpak := true, rpak := true }
  else if h = fnvLit "NPZ" then some { p with cpak := true, rpak := true }
  else if h = fnvLit "NL2" then some { p with cpak := true, rpak := true }
  else if h = fnvLit "NR6" then some { p with cpak := true, rpak := true }
  else if h = fnvLit "NTT" then some { p with cpak := true }
  else none

/-- Cartridge-identifier table, part 8 of 8 (simple single-line
`case` entries of `n64.cpp` lines 317-720, in source order). -/
def cartIdTableH (h : Nat) (p : Profile) : Option Profile :=
  if h = fnvLit "NTF" then some { p with cpak := true, rpak := true }
  else if h = fnvLit "NTQ" then some { p with cpak := true, rpak := true }
  else if h = fnvLit "N3T" then some { p with cpak := true, rpak := true }
  else if h = fnvLit "NGB" then some { p with cpak := true, rpak := true }
  else if h = fnvLit "NGR" then some { p with cpak := true, rpak := true }
  else if h = fnvLit "NTH" then some { p with cpak := true, rpak := true }
  else if h = fnvLit "N3P" then some { p with cpak := true, rpak := true }
  else if h = fnvLit "NTU" then some { p with cpak := true }
  else if h = fnvLit "NRW" then some { p with cpak := true, rpak := true }
  else if h = fnvLit "NT2" then some { p with cpak := true, rpak := true }
  else if h = fnvLit "NTK" then some { p with cpak := true, rpak := true }
  else if h = fnvLit "NSB" then some { p with cpak := true, rpak := true }
  else if h = fnvLit "NV8" then some { p with cpak := true, rpak := true }
  else if h = fnvLit "NVG" then some { p with cpak := true, rpak := true }
  else if h = fnvLit "NVC" then some { p with cpak := true }
  else if h = fnvLit "NVR" then some { p with cpak := true }
  else if h = fnvLit "NWV" then some { p with cpak := true, rpak := true }
  else if h = fnvLit "NWM" then some { p with cpak := true, rpak := true }
  else if h = fnvLit "NW3" then some { p with cpak := true, rpak := true }
  else if h = fnvLit "NWN" then some { p with cpak := true, rpak := true }
  else if h = fnvLit "NWW" then some { p with cpak := true, rpak := true }
  else if h = fnvLit "NTI" then some { p with cpak := true, rpak := true }
  else if h = fnvLit "NWG" then some { p with cpak := true }
  else if h = fnvLit "NW8" then some { p with cpak := true }
  else if h = fnvLit "NWD" then some { p with cpak := true, rpak := true }
  else if h = fnvLit "NWP" then some { p with cpak := true, rpak := true }
  else if h = fnvLit "NJ2" then some { p with cpak := true }
  else if h = fnvLit "N8W" then some { p with cpak := true }
  else if h = fnvLit "NWO" then some { p with cpak := true, rpak := true }
  else if h = fnvLit "NXF" then some { p with cpak := true, rpak := true }
  else if h = fnvLit "NJQ" then some { p with rpak := true }
  else if h = fnvLit "NCB" then some { p with rpak := true }
  else if h = fnvLit "NDF" then some { p with rpak := true }
  else if h = fnvLit "NKE" then some { p with rpak := true }
  else if h = fnvLit "NMT" then some { p with rpak := true }
  else if h = fnvLit "NM3" then some { p with rpak := true }
  else if h = fnvLit "NRG" then some { p with rpak := true }
  else if h = fnvLit "NOH" then some { p with rpak := true, tpak := true }
  else if h = fnvLit "NWF" then some { p with rpak := true }
  else none

/-- The region/revision-conditioned special cases of the cartridge-identifier
switch (`n64.cpp` lines 722-795): `N3H`, `ND3`, `ND4`, `NSM`, `NWR`, `NK4`,
`NDK`, `NWT`.  The region byte is compared with `'J'` = 74. -/
def cartIdSpecial (h : Nat) (region_code revision : Nat) (p : Profile) : Option Profile :=
  if h = fnvLit "N3H" then
    some (if region_code = 74 then { p with save_type := MemoryType.SRAM_32k }
          else { p with cpak := true, rpak := true })
  else if h = fnvLit "ND3" then
    some (if region_code = 74 then { p with save_type := MemoryType.EEPROM_2k, rpak := true }
          else { p with cpak := true })
  else if h = fnvLit "ND4" then
    some (if region_code = 74 then { p with rpak := true }
          else { p with cpak := true })
  else if h = fnvLit "NSM" then
    some (if region_code = 74 ∧ revision = 3 then
            { p with rpak := true, save_type := MemoryType.EEPROM_512 }
          else { p with save_type := MemoryType.EEPROM_512 })
  else if h = fnvLit "NWR" then
    some (if region_code = 74 ∧ revision = 2 then
            { p with rpak := true, save_type := MemoryType.EEPROM_512, cpak := true }
          else { p with save_type := MemoryType.EEPROM_512, cpak := true })
  else if h = fnvLit "NK4" then
    some (if region_code = 74 ∧ revision < 2 then
            { p with save_type := MemoryType.SRAM_32k, rpak := true }
          else { p with save_type := MemoryType.EEPROM_2k, rpak := true })
  else if h = fnvLit "NDK" then
    some (if region_code = 74 then { p with save_type := MemoryType.EEPROM_512 } else p)
  else if h = fnvLit "NWT" then
    some (if region_code = 74 then { p with save_type := MemoryType.EEPROM_512 }
          else { p with cpak := true })
  else none

/-- The full cartridge-identifier switch of
`detect_rom_settings_from_first_chunk` (`n64.cpp` lines 317-799), keyed on
`fnv_hash` of the 3-character identifier.  The C `switch` has pairwise
distinct case labels, so trying the table parts in order is equivalent to the
single `switch`; `some p'` is a case that falls through to the five
peripheral/save writes with the updated locals, `none` is
`default: return 2` (unknown cart id). -/
def cartIdEffect (h : Nat) (region_code revision : Nat) (p : Profile) : Option Profile :=
  (cartIdTableA h p).orElse fun _ =>
  (cartIdTableB h p).orElse fun _ =>
  (cartIdTableC h p).orElse fun _ =>
  (cartIdTableD h p).orElse fun _ =>
  (cartIdTableE h p).orElse fun _ =>
  (cartIdTableF h p).orElse fun _ =>
  (cartIdTableG h p).orElse fun _ =>
  (cartIdTableH h p).orElse fun _ =>
  cartIdSpecial h region_code revision p

/-- `detect_rom_settings_from_first_chunk` (`n64.cpp` lines 245-808).
Inputs are the C string of the cartridge identifier (as bytes), the region
byte, the revision byte, the 64-bit IPL3 checksum and the external
auto-detect flag read at entry.  Returns the C return code (0 success /
auto-detect off, 1 unknown CIC, 2 unknown cart id) and the
`user_io_status_set` calls performed, in order. -/
def detect_rom_settings_from_first_chunk (id : List Nat) (region_code revision crc : Nat)
    (auto_detect : AutoDetect) : Nat × List Event :=
  if auto_detect ≠ AutoDetect.ON then (0, [])
  else
    let system_type := regionSystemType region_code
    match cicLookup crc system_type with
    | none => (1, [])
    | some (cic, st) =>
      let p0 : Profile :=
        { save_type := MemoryType.NONE, system_type := st, cic := cic,
          cpak := false, rpak := false, tpak := false, rtc := false }
      match cartIdEffect (fnv_hash id) region_code revision p0 with
      | none => (2, stCicWrites st cic)
      | some p => (0, stCicWrites st cic ++ peripheralWrites p)

end N64

namespace N64

/-- Modelled from the spec: the MD5 incremental-hash context of
`lib/md5/md5.h`, which is not among the sources under verification.  Spec
§4.3 requires standard incremental hashing whose digest is a function of all
bytes consumed so far, with a state that is independently copyable so that a
copy can be finalized without disturbing the live accumulator.  The context
is therefore modelled by the list of bytes consumed; the digest function
itself (128-bit MD5 rendered as 32 lowercase hex characters by
`md5_to_hex`) is kept abstract as a parameter `digestFn`. -/
structure MD5Context where
  bytes : List Nat
deriving DecidableEq

/-- `MD5Init`: fresh context, no bytes consumed. -/
def MD5Init : MD5Context := ⟨[]⟩

/-- `MD5Update`: consume one chunk. -/
def MD5Update (ctx : MD5Context) (chunk : List Nat) : MD5Context :=
  ⟨ctx.bytes ++ chunk⟩

/-- `MD5Final` followed by `md5_to_hex` (`n64.cpp` lines 810-819): the hex
digest of everything consumed, for an arbitrary digest function. -/
def MD5FinalHex (digestFn : List Nat → String) (ctx : MD5Context) : String :=
  digestFn ctx.bytes

/-- Hashing a chunk sequence front to back with no snapshot ever taken. -/
def md5Run (chunks : List (List Nat)) : MD5Context :=
  chunks.foldl MD5Update MD5Init

/-- Structural-recursion engine for `chunkify`: the fuel bounds the number of
loop iterations and is always instantiated with the list length, which the
loop can never exceed (each iteration consumes at least one byte). -/
def chunkifyFuel : Nat → List Nat → List (List Nat)
  | 0, _ => []
  | _, [] => []
  | fuel + 1, a :: r => ((a :: r).take 4096) :: chunkifyFuel fuel ((a :: r).drop 4096)

/-- The chunk decomposition performed by the `while (bytes2send)` loop
(`n64.cpp` lines 859-911): each iteration consumes `min 4096 remaining`
bytes of the source. -/
def chunkify (l : List Nat) : List (List Nat) := chunkifyFuel l.length l

/-- The IPL3 boot-code checksum (`n64.cpp` line 898): the 64-bit sum of the
32-bit words at word indices 0x40/4 to 0x1000/4 (exclusive) of the
normalized first chunk, each read little-endian as on the host. -/
def ipl3crc (buf : List Nat) : Nat :=
  (List.range' 16 1008).foldl (fun acc i => (acc + le32 buf (4 * i)) % 2 ^ 64) 0

/-- `strncpy(cart_id, buf + 0x3b, 3)` (`n64.cpp` lines 899-900): the three
identifier bytes; NUL truncation is inherent in `fnv_hash`. -/
def cartIdBytes (buf : List Nat) : List Nat := (buf.drop 59).take 3

/-- The normalized first chunk of an accepted (≥ 4096 byte) source. -/
def firstChunkNorm (bytes : List Nat) : List Nat :=
  normalizeData (detectRomFormat (bytes.take 4096)) (bytes.take 4096)

/-- The normalized chunks after the first. -/
def restChunksNorm (bytes : List Nat) : List (List Nat) :=
  (chunkify (bytes.drop 4096)).map (normalizeData (detectRomFormat (bytes.take 4096)))

/-- Everything the file hash consumes: the concatenation of all normalized
chunks in stream order. -/
def fullStreamNorm (bytes : List Nat) : List Nat :=
  firstChunkNorm bytes ++ (restChunksNorm bytes).flatten

/-- Externally visible events of the loop iterations after the first chunk
(`n64.cpp` lines 877, 906, 908): forward the normalized chunk, then report
progress.  Hash updates are internal and produce no event. -/
def txLoopRest (fmt : RomFormat) : List (List Nat) → List Event
  | [] => []
  | c :: rest => Event.txData (normalizeData fmt c) :: Event.progress :: txLoopRest fmt rest

/-- `n64_rom_tx` (`n64.cpp` lines 821-961), parametrized by the digest
function of the spec-modelled MD5 hash and by the line lists of the database
sources in precedence order (`N64-database.txt`, then
`N64-database_user.txt`, `n64.cpp` lines 229-233; a missing file behaves
like a file with no matching line).  The source file is modelled by its
byte list, with `FileOpen` assumed to succeed.  Returns the C return value
together with every externally visible action in program order.  When the
source is empty the loop body never runs, so the minimum-size check never
fires and resolution proceeds on the variable initializers `crc = 0`,
`region_code = 0`, `revision = 0` (in C `cart_id` would additionally be read
uninitialized on that path; it is modelled as empty). -/
def n64_rom_tx (digestFn : List Nat → String) (dbs : List (List String))
    (auto_detect : AutoDetect) (idx : Nat) (fileBytes : List Nat) : Nat × List Event :=
  let pre := [Event.setIndex idx, Event.setDownload 1, Event.progress, Event.processSS]
  let post := [Event.fileMount, Event.setDownload 0, Event.progress]
  match chunkify fileBytes with
  | [] =>
    let fileHex := MD5FinalHex digestFn MD5Init
    let r2 := detect_rom_settings_in_dbs fileHex dbs auto_detect
    let r3 := if r2.1 then (0, ([] : List Event))
              else detect_rom_settings_from_first_chunk [] 0 0 0 auto_detect
    let inf := if r2.1 then []
               else if r3.1 = 1 then [Event.info 1]
               else if r3.1 = 2 then [Event.info 2]
               else []
    (1, pre ++ r2.2 ++ r3.2 ++ post ++ inf)
  | c0raw :: rest =>
    if c0raw.length < 4096 then (0, pre)
    else
      let fmt := detectRomFormat c0raw
      let c0 := normalizeData fmt c0raw
      let ctx1 := MD5Update MD5Init c0
      let headerHex := MD5FinalHex digestFn ctx1
      let r1 := detect_rom_settings_in_dbs headerHex dbs auto_detect
      let crc := if r1.1 then 0 else ipl3crc c0
      let id := if r1.1 then [] else cartIdBytes c0
      let region_code := if r1.1 then 0 else c0.getD 62 0
      let revision := if r1.1 then 0 else c0.getD 63 0
      let loopEvents := r1.2 ++ [Event.txData c0, Event.progress] ++ txLoopRest fmt rest
      let ctxF := rest.foldl (fun ctx c => MD5Update ctx (normalizeData fmt c)) ctx1
      let fileHex := MD5FinalHex digestFn ctxF
      let r2 := if r1.1 then (true, ([] : List Event))
                else detect_rom_settings_in_dbs fileHex dbs auto_detect
      let r3 := if r1.1 || r2.1 then (0, ([] : List Event))
                else detect_rom_settings_from_first_chunk id region_code revision crc auto_detect
      let inf := if r1.1 || r2.1 then []
                 else if r3.1 = 1 then [Event.info 1]
                 else if r3.1 = 2 then [Event.info 2]
                 else []
      (1, pre ++ loopEvents ++ r2.2 ++ r3.2 ++ post ++ inf)

/-- 4096 zero bytes: the smallest accepted source, used to instantiate
witnesses. -/
def z4096 : List Nat := List.replicate 4096 0

/-- 2048 zero bytes: a source shorter than the minimum chunk. -/
def z2048 : List Nat := List.replicate 2048 0

/-- A constant digest function used to instantiate witnesses. -/
def constDigest : List Nat → String := fun _ => "aaaaaaaaaaaaaaaaaaaaaaaaaaaaaaaa"

/-- A database record line whose 32-character key equals the constant digest
above, carrying the tags `sram32k|rpak`. -/
def dbLineA : String := "aaaaaaaaaaaaaaaaaaaaaaaaaaaaaaaa sram32k|rpak"

end N64

namespace N64

theorem chunkifyFuel_congr : ∀ (f1 f2 : Nat) (l : List Nat),
    l.length ≤ f1 → l.length ≤ f2 → chunkifyFuel f1 l = chunkifyFuel f2 l
  | 0, f2, l, h1, _ => by
      have : l = [] := List.eq_nil_of_length_eq_zero (Nat.le_zero.mp h1)
      subst this
      cases f2 <;> rfl
  | f1 + 1, f2, [], _, _ => by cases f2 <;> rfl
  | f1 + 1, 0, a :: r, _, h2 => by simp at h2
  | f1 + 1, f2 + 1, a :: r, h1, h2 => by
      simp only [chunkifyFuel]
      rw [chunkifyFuel_congr f1 f2 ((a :: r).drop 4096)
        (by simp only [List.length_drop, List.length_cons] at h1 ⊢; omega)
        (by simp only [List.length_drop, List.length_cons] at h2 ⊢; omega)]

theorem chunkify_cons (l : List Nat) (h : l ≠ []) :
    chunkify l = l.take 4096 :: chunkify (l.drop 4096) := by
  cases l with
  | nil => exact absurd rfl h
  | cons a r =>
    show chunkifyFuel (a :: r).length (a :: r) = _
    simp only [List.length_cons, chunkifyFuel]
    rw [chunkifyFuel_congr r.length ((a :: r).drop 4096).length ((a :: r).drop 4096)
      (by simp only [List.length_drop, List.length_cons]; omega) le_rfl]
    rfl

theorem swapPairs_append : ∀ (xs ys : List Nat), 2 ∣ xs.length →
    swapPairs (xs ++ ys) = swapPairs xs ++ swapPairs ys
  | [], _, _ => rfl
  | [a], _, h => by simp [List.length_cons] at h
  | a :: b :: tl, ys, h => by
      have h2 : 2 ∣ tl.length := by simp [List.length_cons] at h; omega
      simp only [List.cons_append, swapPairs, List.append_eq]
      rw [swapPairs_append tl ys h2]

theorem rev4_append : ∀ (xs ys : List Nat), 4 ∣ xs.length →
    rev4 (xs ++ ys) = rev4 xs ++ rev4 ys
  | [], _, _ => rfl
  | [a], _, h => by simp [List.length_cons] at h
  | [a, b], _, h => by simp [List.length_cons] at h; omega
  | [a, b, c], _, h => by simp [List.length_cons] at h; omega
  | a :: b :: c :: d :: tl, ys, h => by
      have h4 : 4 ∣ tl.length := by simp [List.length_cons] at h; omega
      simp only [List.cons_append, rev4, List.append_eq]
      rw [rev4_append tl ys h4]

theorem normalizeData_append (fmt : RomFormat) (xs ys : List Nat)
    (h : granularity fmt ∣ xs.length) :
    normalizeData fmt (xs ++ ys) = normalizeData fmt xs ++ normalizeData fmt ys := by
  cases fmt with
  | BYTE_SWAPPED => exact swapPairs_append xs ys h
  | LITTLE_ENDIAN_FMT => exact rev4_append xs ys h
  | UNKNOWN => rfl
  | BIG_ENDIAN_FMT => rfl

end N64

namespace N64

theorem md5_foldl_bytes : ∀ (cs : List (List Nat)) (ctx : MD5Context),
    (cs.foldl MD5Update ctx).bytes = ctx.bytes ++ cs.flatten
  | [], ctx => by simp
  | c :: cs, ctx => by
      simp only [List.foldl_cons, List.flatten_cons]
      rw [md5_foldl_bytes cs (MD5Update ctx c)]
      simp [MD5Update, List.append_assoc]

theorem md5_foldl_map_bytes (g : List Nat → List Nat) :
    ∀ (cs : List (List Nat)) (ctx : MD5Context),
    (cs.foldl (fun c x => MD5Update c (g x)) ctx).bytes = ctx.bytes ++ (cs.map g).flatten
  | [], ctx => by simp
  | c :: cs, ctx => by
      simp only [List.foldl_cons, List.map_cons, List.flatten_cons]
      rw [md5_foldl_map_bytes g cs (MD5Update ctx (g c))]
      simp [MD5Update, List.append_assoc]

theorem chunkLen_aux : ∀ (n : Nat) (l : List Nat), l.length ≤ n → 4 ∣ l.length →
    ∀ c ∈ chunkify l, 4 ∣ c.length := by
  intro n
  induction n with
  | zero =>
    intro l hl _ c hc
    have : l = [] := List.eq_nil_of_length_eq_zero (Nat.le_zero.mp hl)
    subst this
    simp [chunkify, chunkifyFuel] at hc
  | succ n ih =>
    intro l hl h4 c hc
    cases l with
    | nil => simp [chunkify, chunkifyFuel] at hc
    | cons a r =>
      rw [chunkify_cons (a :: r) (by simp)] at hc
      rcases List.mem_cons.mp hc with rfl | hc'
      · rw [List.length_take]
        simp only [List.length_cons] at h4
        rcases Nat.le_total 4096 (r.length + 1) with hle | hle
        · rw [List.length_cons, Nat.min_eq_left hle]
          decide
        · rw [List.length_cons, Nat.min_eq_right hle]
          exact h4
      · refine ih ((a :: r).drop 4096) ?_ ?_ c hc'
        · simp only [List.length_drop, List.length_cons] at hl ⊢
          omega
        · simp only [List.length_drop, List.length_cons] at h4 ⊢
          omega

end N64

namespace N64

theorem getD_replicate_zero : ∀ (n i : Nat), (List.replicate n (0 : Nat)).getD i 0 = 0
  | 0, _ => by simp [List.getD]
  | n + 1, 0 => rfl
  | n + 1, i + 1 => getD_replicate_zero n i

theorem replicate_zero_ne_nil (n : Nat) : List.replicate (n + 1) (0 : Nat) ≠ [] := by
  rw [List.replicate_succ]
  exact List.cons_ne_nil _ _

theorem le32_replicate_zero (n i : Nat) : le32 (List.replicate n 0) i = 0 := by
  simp [le32, getD_replicate_zero]

theorem foldl_mod64_zero : ∀ (l : List Nat),
    List.foldl (fun acc (_ : Nat) => acc % 2 ^ 64) 0 l = 0
  | [] => rfl
  | a :: l => by
      simpa [List.foldl_cons, Nat.zero_mod] using foldl_mod64_zero l

theorem ipl3crc_replicate_zero (n : Nat) : ipl3crc (List.replicate n 0) = 0 := by
  simp only [ipl3crc, le32_replicate_zero, Nat.add_zero]
  exact foldl_mod64_zero _

theorem z4096_length : z4096.length = 4096 := by
  rw [z4096, List.length_replicate]

theorem z2048_length : z2048.length = 2048 := by
  rw [z2048, List.length_replicate]

theorem detectRomFormat_replicate_zero (n : Nat) :
    detectRomFormat (List.replicate n 0) = RomFormat.UNKNOWN := by
  simp [detectRomFormat, le32_replicate_zero]

theorem chunkify_z4096 : chunkify z4096 = [z4096] := by
  rw [z4096, chunkify_cons _ (by rw [← z4096]; intro h; simpa [z4096_length] using congrArg List.length h),
    List.take_replicate, List.drop_replicate]
  norm_num
  rfl

theorem firstChunkNorm_z4096 : firstChunkNorm z4096 = z4096 := by
  rw [firstChunkNorm, z4096, List.take_replicate]
  norm_num
  rw [detectRomFormat_replicate_zero]
  rfl

theorem chunkify_z2048 : chunkify z2048 = [z2048] := by
  rw [z2048, chunkify_cons _ (by rw [← z2048]; intro h; simpa [z2048_length] using congrArg List.length h),
    List.take_replicate, List.drop_replicate]
  norm_num
  rfl

end N64

namespace N64

/-- C8: for every `RomFormat` and any split of a buffer into chunks whose
lengths are all multiples of the transform's granularity (2 bytes for
byte-swapped, 4 bytes for little-endian), normalizing each chunk
independently and concatenating the results yields exactly the bytes of
normalizing the whole concatenated buffer once. -/
theorem chunked_normalization (fmt : RomFormat) (chunks : List (List Nat))
    (h : ∀ c ∈ chunks, granularity fmt ∣ c.length) :
    (chunks.map (normalizeData fmt)).flatten = normalizeData fmt chunks.flatten := by
  induction chunks with
  | nil => cases fmt <;> rfl
  | cons c cs ih =>
    simp only [List.map_cons, List.flatten_cons]
    rw [normalizeData_append fmt c cs.flatten (h c (by simp)),
      ih (fun x hx => h x (List.mem_cons_of_mem c hx))]

/-- Witness for C8: a concrete little-endian split into 4-byte chunks. -/
theorem chunked_normalization_witness :
    (∀ c ∈ ([[1, 2, 3, 4], [5, 6, 7, 8], [9, 10, 11, 12]] : List (List Nat)),
        granularity RomFormat.LITTLE_ENDIAN_FMT ∣ c.length)
    ∧ (([[1, 2, 3, 4], [5, 6, 7, 8], [9, 10, 11, 12]] : List (List Nat)).map
          (normalizeData RomFormat.LITTLE_ENDIAN_FMT)).flatten
        = normalizeData RomFormat.LITTLE_ENDIAN_FMT
            ([[1, 2, 3, 4], [5, 6, 7, 8], [9, 10, 11, 12]] : List (List Nat)).flatten :=
  ⟨by decide, chunked_normalization _ _ (by decide)⟩

/-- C9 counterexample: a 4097-byte source is accepted (length ≥ 4096), but
the chunk decomposition the pipeline feeds to the normalizer ends with a
1-byte chunk, which is not a multiple of 4. -/
theorem chunk_multiple_cex :
    4096 ≤ (List.replicate 4097 0 : List Nat).length
    ∧ ¬ (∀ c ∈ chunkify (List.replicate 4097 0 : List Nat), 4 ∣ c.length) := by
  have hch : chunkify (List.replicate 4097 0 : List Nat)
      = [List.replicate 4096 0, [0]] := by
    rw [chunkify_cons _ (replicate_zero_ne_nil 4096), List.take_replicate, List.drop_replicate,
      show min 4096 4097 = 4096 from by decide, show (4097 - 4096 : Nat) = 1 from rfl,
      show (List.replicate 1 (0 : Nat)) = [0] from rfl]
    congr 1
  refine ⟨by rw [List.length_replicate]; norm_num, ?_⟩
  intro hall
  have h1 := hall [0] (by rw [hch]; exact List.mem_cons_of_mem _ (List.mem_cons_self _ _))
  exact absurd h1 (by decide)

/-- C9 (amended): for every source whose total size is a multiple of 4,
every chunk the pipeline passes to the normalizer has a length that is a
multiple of 4 (each non-final chunk has length 4096 and the final chunk
absorbs the remainder, which is then itself a multiple of 4). -/
theorem chunk_lengths_multiple_of_four (bytes : List Nat) (h4 : 4 ∣ bytes.length) :
    ∀ c ∈ chunkify bytes, 4 ∣ c.length :=
  chunkLen_aux bytes.length bytes le_rfl h4

/-- Witness for C9 (amended) on an 8192-byte source. -/
theorem chunk_lengths_multiple_of_four_witness :
    4 ∣ (List.replicate 8192 0 : List Nat).length
    ∧ ∀ c ∈ chunkify (List.replicate 8192 0 : List Nat), 4 ∣ c.length :=
  ⟨by rw [List.length_replicate]; norm_num,
   chunk_lengths_multiple_of_four _ (by rw [List.length_replicate]; norm_num)⟩

/-- C2: taking a snapshot digest after the first chunk — copying the live
context and finalizing the copy — yields the digest of the first chunk
alone, and continuing to update and finally finalize the original context
yields the digest of the entire stream, identical to hashing the whole
stream with no snapshot ever taken.  (Stated for the spec-modelled hash
context and an arbitrary digest function; the copy is value semantics of
`MD5Context`, as in the `memcpy` at `n64.cpp` line 889.) -/
theorem snapshot_digest_spec (digestFn : List Nat → String) (c0 : List Nat)
    (rest : List (List Nat)) :
    MD5FinalHex digestFn (rest.foldl MD5Update (MD5Update MD5Init c0))
      = MD5FinalHex digestFn (md5Run (c0 :: rest))
    ∧ MD5FinalHex digestFn (md5Run (c0 :: rest)) = digestFn (c0 :: rest).flatten
    ∧ MD5FinalHex digestFn (MD5Update MD5Init c0) = digestFn c0 := by
  refine ⟨rfl, ?_, rfl⟩
  simp [MD5FinalHex, md5Run, md5_foldl_bytes, MD5Init, MD5Update]

/-- C4 counterexample: with all four header inputs identical (empty
identifier, region 0, revision 0, checksum 0), the resolver's result differs
depending on the external auto-detect flag it reads — it is not independent
of external state. -/
theorem resolver_external_state_cex :
    detect_rom_settings_from_first_chunk [] 0 0 0 AutoDetect.ON
      ≠ detect_rom_settings_from_first_chunk [] 0 0 0 AutoDetect.OFF := by
  decide

/-- C4 (amended): the heuristic resolver is a deterministic pure function of
the four header inputs *and* the auto-detect flag value it reads at entry:
two invocations agreeing on all five yield identical results. -/
theorem resolver_deterministic (id₁ id₂ : List Nat) (rc₁ rc₂ rev₁ rev₂ crc₁ crc₂ : Nat)
    (ad₁ ad₂ : AutoDetect) (h1 : id₁ = id₂) (h2 : rc₁ = rc₂) (h3 : rev₁ = rev₂)
    (h4 : crc₁ = crc₂) (h5 : ad₁ = ad₂) :
    detect_rom_settings_from_first_chunk id₁ rc₁ rev₁ crc₁ ad₁
      = detect_rom_settings_from_first_chunk id₂ rc₂ rev₂ crc₂ ad₂ := by
  subst h1 h2 h3 h4 h5
  rfl

/-- Witness for C4 (amended) at a concrete input. -/
theorem resolver_deterministic_witness :
    detect_rom_settings_from_first_chunk (strBytes "NZL") 80 0 0 AutoDetect.ON
      = detect_rom_settings_from_first_chunk (strBytes "NZL") 80 0 0 AutoDetect.ON :=
  resolver_deterministic _ _ _ _ _ _ _ _ _ _ rfl rfl rfl rfl rfl

end N64

namespace N64

/-- C5 counterexample: with cartridge id `NZL`, region byte `'E'` = 69,
revision 0 and the 6105/7105 checksum, the resolver (auto-detect enabled)
maps region `'E'` to NTSC, so it writes SystemType NTSC and CIC 6105 — not
PAL and 7105 as the claim states. -/
theorem nzl_scenario_cex :
    detect_rom_settings_from_first_chunk (strBytes "NZL") 69 0 0x000000f8b860ed00 AutoDetect.ON
      = (0, [Event.statusSet "[80:79]" SystemType.NTSC.toNat,
             Event.statusSet "[68:65]" CIC.CIC_NUS_6105.toNat,
             Event.statusSet "[71]" 0, Event.statusSet "[72]" 1,
             Event.statusSet "[73]" 0, Event.statusSet "[74]" 0,
             Event.statusSet "[77:75]" MemoryType.SRAM_32k.toNat])
    ∧ Event.statusSet "[80:79]" SystemType.PAL.toNat
        ∉ (detect_rom_settings_from_first_chunk (strBytes "NZL") 69 0
            0x000000f8b860ed00 AutoDetect.ON).2
    ∧ Event.statusSet "[68:65]" CIC.CIC_NUS_7105.toNat
        ∉ (detect_rom_settings_from_first_chunk (strBytes "NZL") 69 0
            0x000000f8b860ed00 AutoDetect.ON).2 := by
  decide

/-- C5 (amended): with auto-detect enabled, no database match, cartridge id
`NZL`, region `'P'` (Europe) = 80 and the 6105/7105 checksum, the heuristic
resolver succeeds with SystemType PAL, CIC 7105 (the PAL variant of the
6105/7105 pair), 32 KiB SRAM and rumble-pak support. -/
theorem nzl_scenario_pal :
    detect_rom_settings_from_first_chunk (strBytes "NZL") 80 0 0x000000f8b860ed00 AutoDetect.ON
      = (0, [Event.statusSet "[80:79]" SystemType.PAL.toNat,
             Event.statusSet "[68:65]" CIC.CIC_NUS_7105.toNat,
             Event.statusSet "[71]" 0, Event.statusSet "[72]" 1,
             Event.statusSet "[73]" 0, Event.statusSet "[74]" 0,
             Event.statusSet "[77:75]" MemoryType.SRAM_32k.toNat]) := by
  decide

/-- C6 (code bug): tag tokens are lower-cased before hashing, but the
`cicDDUS` case label hashes the mixed-case literal, so no spelling of the
DDUS CIC tag can ever match it — every case variant of `cicddus` is treated
as an unknown tag and leaves the profile unchanged, while the other tokens
(e.g. `SRAM32K`) are matched case-insensitively as the claim states. -/
theorem cicddus_tag_dead :
    fnvStr (normalizeString "cicDDUS") ≠ fnvLit "cicDDUS"
    ∧ tagEffect dbDefaultProfile "cicDDUS".data = dbDefaultProfile
    ∧ tagEffect dbDefaultProfile "cicddus".data = dbDefaultProfile
    ∧ tagEffect dbDefaultProfile "CICDDUS".data = dbDefaultProfile
    ∧ dbDefaultProfile.cic ≠ CIC.CIC_NUS_DDUS
    ∧ tagEffect dbDefaultProfile "SRAM32K".data
        = { dbDefaultProfile with save_type := MemoryType.SRAM_32k } := by
  decide

end N64

namespace N64

theorem statusEvents_append (a b : List Event) :
    statusEvents (a ++ b) = statusEvents a ++ statusEvents b :=
  List.filter_append _ _

theorem infoEvents_append (a b : List Event) :
    infoEvents (a ++ b) = infoEvents a ++ infoEvents b :=
  List.filter_append _ _

theorem statusEvents_txLoopRest (fmt : RomFormat) :
    ∀ (cs : List (List Nat)), statusEvents (txLoopRest fmt cs) = []
  | [] => rfl
  | c :: cs => by
      simp only [txLoopRest, statusEvents, List.filter_cons, isStatusSet]
      exact statusEvents_txLoopRest fmt cs

theorem infoEvents_txLoopRest (fmt : RomFormat) :
    ∀ (cs : List (List Nat)), infoEvents (txLoopRest fmt cs) = []
  | [] => rfl
  | c :: cs => by
      simp only [txLoopRest, infoEvents, List.filter_cons, isInfo]
      exact infoEvents_txLoopRest fmt cs

theorem db_events_cases (lookup_hash : String) (ad : AutoDetect) : ∀ (ls : List String),
    (detect_rom_settings_in_db lookup_hash ls ad).2 = []
    ∨ ∃ p, (detect_rom_settings_in_db lookup_hash ls ad).2 = profileWrites p
  | [] => Or.inl rfl
  | line :: rest => by
      simp only [detect_rom_settings_in_db]
      split
      · split
        · exact db_events_cases lookup_hash ad rest
        · split
          · exact Or.inr ⟨_, rfl⟩
          · exact Or.inl rfl
      · exact db_events_cases lookup_hash ad rest

theorem db_miss_events (lookup_hash : String) (ad : AutoDetect) : ∀ (ls : List String),
    (detect_rom_settings_in_db lookup_hash ls ad).1 = false →
    (detect_rom_settings_in_db lookup_hash ls ad).2 = []
  | [] => fun _ => rfl
  | line :: rest => by
      simp only [detect_rom_settings_in_db]
      split
      · split
        · exact db_miss_events lookup_hash ad rest
        · split
          · intro h; simp at h
          · intro h; simp at h
      · exact db_miss_events lookup_hash ad rest

theorem dbs_events_cases (lookup_hash : String) (ad : AutoDetect) : ∀ (dbs : List (List String)),
    (detect_rom_settings_in_dbs lookup_hash dbs ad).2 = []
    ∨ ∃ p, (detect_rom_settings_in_dbs lookup_hash dbs ad).2 = profileWrites p
  | [] => Or.inl rfl
  | db :: rest => by
      simp only [detect_rom_settings_in_dbs]
      split
      · exact db_events_cases lookup_hash ad db
      · exact dbs_events_cases lookup_hash ad rest

theorem dbs_miss_events (lookup_hash : String) (ad : AutoDetect) : ∀ (dbs : List (List String)),
    (detect_rom_settings_in_dbs lookup_hash dbs ad).1 = false →
    (detect_rom_settings_in_dbs lookup_hash dbs ad).2 = []
  | [] => fun _ => rfl
  | db :: rest => by
      simp only [detect_rom_settings_in_dbs]
      split
      · next hcond =>
          intro h
          rw [h] at hcond
          exact Bool.noConfusion hcond
      · exact dbs_miss_events lookup_hash ad rest

theorem dbs_events_status (lookup_hash : String) (ad : AutoDetect) (dbs : List (List String)) :
    statusEvents (detect_rom_settings_in_dbs lookup_hash dbs ad).2
      = (detect_rom_settings_in_dbs lookup_hash dbs ad).2 := by
  rcases dbs_events_cases lookup_hash ad dbs with h | ⟨p, h⟩ <;> rw [h] <;> rfl

theorem dbs_events_no_info (lookup_hash : String) (ad : AutoDetect) (dbs : List (List String)) :
    infoEvents (detect_rom_settings_in_dbs lookup_hash dbs ad).2 = [] := by
  rcases dbs_events_cases lookup_hash ad dbs with h | ⟨p, h⟩ <;> rw [h] <;> rfl

theorem heuristic_events (id : List Nat) (rc rev crc : Nat) (ad : AutoDetect) :
    statusEvents (detect_rom_settings_from_first_chunk id rc rev crc ad).2
      = (detect_rom_settings_from_first_chunk id rc rev crc ad).2
    ∧ infoEvents (detect_rom_settings_from_first_chunk id rc rev crc ad).2 = [] := by
  simp only [detect_rom_settings_from_first_chunk]
  split
  · exact ⟨rfl, rfl⟩
  · split
    · exact ⟨rfl, rfl⟩
    · split
      · exact ⟨rfl, rfl⟩
      · constructor
        · rw [statusEvents_append]; rfl
        · rw [infoEvents_append]; rfl

end N64

namespace N64

theorem cic_forced_writes (id : List Nat) (rc rev crc : Nat) (cic : CIC) (st : SystemType)
    (h : cicLookup crc (regionSystemType rc) = some (cic, st)) :
    ((detect_rom_settings_from_first_chunk id rc rev crc AutoDetect.ON).2).filter
        (isFieldSet "[80:79]") = [Event.statusSet "[80:79]" st.toNat]
    ∧ ((detect_rom_settings_from_first_chunk id rc rev crc AutoDetect.ON).2).filter
        (isFieldSet "[68:65]") = [Event.statusSet "[68:65]" cic.toNat] := by
  simp only [detect_rom_settings_from_first_chunk, h]
  rw [if_neg (by simp)]
  split
  · constructor <;> simp [stCicWrites, isFieldSet, List.filter_cons]
  · constructor <;>
      simp [stCicWrites, peripheralWrites, isFieldSet, List.filter_cons, List.filter_append]

/-- C10: two checksum table entries override the region-derived system type:
checksum 0xa405397b05 assigns CIC 7102 and forces PAL regardless of the
region code, and checksum 0xa0f26f62fe assigns CIC 6101 and forces NTSC
regardless of the region code; with auto-detect enabled the forced value is
exactly what the resolver writes to the external system-type field
(`[80:79]`), for every cartridge identifier and revision. -/
theorem forced_system_type (id : List Nat) (rc rev : Nat) :
    (((detect_rom_settings_from_first_chunk id rc rev 0x000000a405397b05 AutoDetect.ON).2).filter
          (isFieldSet "[80:79]") = [Event.statusSet "[80:79]" SystemType.PAL.toNat]
      ∧ ((detect_rom_settings_from_first_chunk id rc rev 0x000000a405397b05 AutoDetect.ON).2).filter
          (isFieldSet "[68:65]") = [Event.statusSet "[68:65]" CIC.CIC_NUS_7102.toNat])
    ∧ (((detect_rom_settings_from_first_chunk id rc rev 0x000000a0f26f62fe AutoDetect.ON).2).filter
          (isFieldSet "[80:79]") = [Event.statusSet "[80:79]" SystemType.NTSC.toNat]
      ∧ ((detect_rom_settings_from_first_chunk id rc rev 0x000000a0f26f62fe AutoDetect.ON).2).filter
          (isFieldSet "[68:65]") = [Event.statusSet "[68:65]" CIC.CIC_NUS_6101.toNat]) :=
  ⟨cic_forced_writes id rc rev _ _ _ (by simp [cicLookup]),
   cic_forced_writes id rc rev _ _ _ (by simp [cicLookup])⟩

end N64

namespace N64

theorem n64_rom_tx_short (digestFn : List Nat → String) (dbs : List (List String))
    (ad : AutoDetect) (idx : Nat) (bytes : List Nat) (h0 : bytes ≠ [])
    (hlt : bytes.length < 4096) :
    n64_rom_tx digestFn dbs ad idx bytes
      = (0, [Event.setIndex idx, Event.setDownload 1, Event.progress, Event.processSS]) := by
  have hc := chunkify_cons bytes h0
  simp only [n64_rom_tx, hc]
  rw [if_pos (by rw [List.length_take]; omega)]

/-- C7 (amended): a source shorter than one 4096-byte chunk (and nonempty)
is rejected: the pipeline reports failure (returns 0) before any
configuration-store write and before any byte reaches the byte sink — but
only after the target-index selection, the start-of-transfer signal, the
initial progress reset and the save-state processing have already happened,
exactly the four external actions shown. -/
theorem short_source_aborts (digestFn : List Nat → String) (dbs : List (List String))
    (ad : AutoDetect) (idx : Nat) (bytes : List Nat) (h0 : bytes ≠ [])
    (hlt : bytes.length < 4096) :
    n64_rom_tx digestFn dbs ad idx bytes
      = (0, [Event.setIndex idx, Event.setDownload 1, Event.progress, Event.processSS]) :=
  n64_rom_tx_short digestFn dbs ad idx bytes h0 hlt

/-- Witness for C7 (amended) on a 2048-byte source. -/
theorem short_source_aborts_witness :
    z2048 ≠ [] ∧ z2048.length < 4096
    ∧ n64_rom_tx constDigest [] AutoDetect.ON 0 z2048
        = (0, [Event.setIndex 0, Event.setDownload 1, Event.progress, Event.processSS]) :=
  ⟨by intro h; simpa [z2048_length] using congrArg List.length h,
   by rw [z2048_length]; omega,
   short_source_aborts constDigest [] AutoDetect.ON 0 z2048
     (by intro h; simpa [z2048_length] using congrArg List.length h)
     (by rw [z2048_length]; omega)⟩

/-- C7 counterexample: on a 2048-byte source the ingestion does abort with
no configuration write and no forwarded bytes, but the abort is *not* free
of external side effects: the target index has been selected, the
start-of-transfer signal has been raised and save-state processing has run
before the length check fires. -/
theorem short_source_side_effects_cex :
    n64_rom_tx constDigest [] AutoDetect.ON 7 z2048
      = (0, [Event.setIndex 7, Event.setDownload 1, Event.progress, Event.processSS])
    ∧ Event.setIndex 7 ∈ (n64_rom_tx constDigest [] AutoDetect.ON 7 z2048).2
    ∧ Event.setDownload 1 ∈ (n64_rom_tx constDigest [] AutoDetect.ON 7 z2048).2
    ∧ Event.processSS ∈ (n64_rom_tx constDigest [] AutoDetect.ON 7 z2048).2 := by
  have hrun := n64_rom_tx_short constDigest [] AutoDetect.ON 7 z2048
    (by intro h; simpa [z2048_length] using congrArg List.length h)
    (by rw [z2048_length]; omega)
  refine ⟨hrun, ?_, ?_, ?_⟩ <;> rw [hrun] <;> simp

end N64

namespace N64

theorem firstChunkNorm_eq (bytes : List Nat) :
    normalizeData (detectRomFormat (bytes.take 4096)) (bytes.take 4096)
      = firstChunkNorm bytes := rfl

theorem headerHex_eq (digestFn : List Nat → String) (c0 : List Nat) :
    MD5FinalHex digestFn (MD5Update MD5Init c0) = digestFn c0 := rfl

theorem fileHex_eq (digestFn : List Nat → String) (bytes : List Nat) :
    MD5FinalHex digestFn
      ((chunkify (bytes.drop 4096)).foldl
        (fun ctx c => MD5Update ctx (normalizeData (detectRomFormat (bytes.take 4096)) c))
        (MD5Update MD5Init (firstChunkNorm bytes)))
      = digestFn (fullStreamNorm bytes) := by
  show digestFn (((chunkify (bytes.drop 4096)).foldl
      (fun ctx c => MD5Update ctx (normalizeData (detectRomFormat (bytes.take 4096)) c))
      (MD5Update MD5Init (firstChunkNorm bytes))).bytes) = _
  rw [md5_foldl_map_bytes]
  simp [MD5Update, MD5Init, fullStreamNorm, restChunksNorm, firstChunkNorm]

theorem statusEvents_nil : statusEvents [] = [] := rfl

theorem statusEvents_cons_setIndex (i : Nat) (es : List Event) :
    statusEvents (Event.setIndex i :: es) = statusEvents es := rfl

theorem statusEvents_cons_setDownload (v : Nat) (es : List Event) :
    statusEvents (Event.setDownload v :: es) = statusEvents es := rfl

theorem statusEvents_cons_progress (es : List Event) :
    statusEvents (Event.progress :: es) = statusEvents es := rfl

theorem statusEvents_cons_processSS (es : List Event) :
    statusEvents (Event.processSS :: es) = statusEvents es := rfl

theorem statusEvents_cons_txData (b : List Nat) (es : List Event) :
    statusEvents (Event.txData b :: es) = statusEvents es := rfl

theorem statusEvents_cons_fileMount (es : List Event) :
    statusEvents (Event.fileMount :: es) = statusEvents es := rfl

theorem statusEvents_cons_info (v : Nat) (es : List Event) :
    statusEvents (Event.info v :: es) = statusEvents es := rfl

theorem infoEvents_nil : infoEvents [] = [] := rfl

theorem infoEvents_cons_setIndex (i : Nat) (es : List Event) :
    infoEvents (Event.setIndex i :: es) = infoEvents es := rfl

theorem infoEvents_cons_setDownload (v : Nat) (es : List Event) :
    infoEvents (Event.setDownload v :: es) = infoEvents es := rfl

theorem infoEvents_cons_progress (es : List Event) :
    infoEvents (Event.progress :: es) = infoEvents es := rfl

theorem infoEvents_cons_processSS (es : List Event) :
    infoEvents (Event.processSS :: es) = infoEvents es := rfl

theorem infoEvents_cons_txData (b : List Nat) (es : List Event) :
    infoEvents (Event.txData b :: es) = infoEvents es := rfl

theorem infoEvents_cons_fileMount (es : List Event) :
    infoEvents (Event.fileMount :: es) = infoEvents es := rfl

theorem infoEvents_cons_statusSet (f : String) (v : Nat) (es : List Event) :
    infoEvents (Event.statusSet f v :: es) = infoEvents es := rfl

theorem infoEvents_cons_info (v : Nat) (es : List Event) :
    infoEvents (Event.info v :: es) = Event.info v :: infoEvents es := rfl

/-- C1: resolution tries header digest, then file digest, then the
heuristic, short-circuiting on first success: if the header-digest lookup
succeeds, the external configuration writes of the whole ingestion are
exactly the header lookup's writes (never overwritten, even partially, by
the file-digest lookup or the heuristic); if it misses and the file-digest
lookup succeeds, the writes are exactly the file lookup's; only when both
miss do the heuristic's writes appear. -/
theorem resolution_priority (digestFn : List Nat → String) (dbs : List (List String))
    (ad : AutoDetect) (idx : Nat) (bytes : List Nat) (h4 : 4096 ≤ bytes.length) :
    ((detect_rom_settings_in_dbs (digestFn (firstChunkNorm bytes)) dbs ad).1 = true →
        statusEvents (n64_rom_tx digestFn dbs ad idx bytes).2
          = (detect_rom_settings_in_dbs (digestFn (firstChunkNorm bytes)) dbs ad).2)
    ∧ ((detect_rom_settings_in_dbs (digestFn (firstChunkNorm bytes)) dbs ad).1 = false →
        (detect_rom_settings_in_dbs (digestFn (fullStreamNorm bytes)) dbs ad).1 = true →
        statusEvents (n64_rom_tx digestFn dbs ad idx bytes).2
          = (detect_rom_settings_in_dbs (digestFn (fullStreamNorm bytes)) dbs ad).2)
    ∧ ((detect_rom_settings_in_dbs (digestFn (firstChunkNorm bytes)) dbs ad).1 = false →
        (detect_rom_settings_in_dbs (digestFn (fullStreamNorm bytes)) dbs ad).1 = false →
        statusEvents (n64_rom_tx digestFn dbs ad idx bytes).2
          = (detect_rom_settings_from_first_chunk (cartIdBytes (firstChunkNorm bytes))
              ((firstChunkNorm bytes).getD 62 0) ((firstChunkNorm bytes).getD 63 0)
              (ipl3crc (firstChunkNorm bytes)) ad).2) := by
  have hbne : bytes ≠ [] := by
    intro h
    rw [h] at h4
    simp at h4
  have hc := chunkify_cons bytes hbne
  simp only [n64_rom_tx, hc]
  rw [if_neg (by rw [List.length_take]; omega)]
  simp only [firstChunkNorm_eq, headerHex_eq, fileHex_eq]
  refine ⟨?_, ?_, ?_⟩
  · intro h1
    simp only [h1]
    simp [statusEvents_append, statusEvents_txLoopRest, dbs_events_status,
      statusEvents_nil, statusEvents_cons_setIndex, statusEvents_cons_setDownload,
      statusEvents_cons_progress, statusEvents_cons_processSS, statusEvents_cons_txData,
      statusEvents_cons_fileMount, statusEvents_cons_info]
  · intro h1 h2
    simp only [h1, h2, dbs_miss_events _ _ _ h1]
    simp [h2, statusEvents_append, statusEvents_txLoopRest, dbs_events_status,
      apply_ite statusEvents, ite_self,
      statusEvents_nil, statusEvents_cons_setIndex, statusEvents_cons_setDownload,
      statusEvents_cons_progress, statusEvents_cons_processSS, statusEvents_cons_txData,
      statusEvents_cons_fileMount, statusEvents_cons_info]
  · intro h1 h2
    simp only [h1, h2, dbs_miss_events _ _ _ h1, dbs_miss_events _ _ _ h2]
    simp [h1, h2, statusEvents_append, statusEvents_txLoopRest, dbs_events_status,
      (heuristic_events _ _ _ _ _).1, apply_ite statusEvents, ite_self,
      statusEvents_nil, statusEvents_cons_setIndex, statusEvents_cons_setDownload,
      statusEvents_cons_progress, statusEvents_cons_processSS, statusEvents_cons_txData,
      statusEvents_cons_fileMount, statusEvents_cons_info]
    exact dbs_miss_events _ _ _ h2

end N64

namespace N64

theorem cic_unknown_result (id : List Nat) (rc rev crc : Nat)
    (h : cicLookup crc (regionSystemType rc) = none) :
    detect_rom_settings_from_first_chunk id rc rev crc AutoDetect.ON = (1, []) := by
  simp only [detect_rom_settings_from_first_chunk, h]
  rw [if_neg (by simp)]

/-- C3 (amended): when the auto-detect flag is enabled, if both database
lookups miss and the boot-code checksum matches no entry of the fixed CIC
table, the heuristic resolver fails with the unknown-CIC code 1 performing
no external write whatever the cartridge identifier is (the cartridge-id
lookup is never reached, so save-type and peripheral fields are untouched),
the whole ingestion performs no configuration-store write, and the only
user-facing notice is the unknown boot-authentication ("Unknown CIC type")
variant, not the unknown-cartridge-identifier one. -/
theorem unknownCic_aborts_resolution (digestFn : List Nat → String)
    (dbs : List (List String)) (idx : Nat) (bytes : List Nat) (h4 : 4096 ≤ bytes.length)
    (hmiss1 : (detect_rom_settings_in_dbs (digestFn (firstChunkNorm bytes)) dbs
        AutoDetect.ON).1 = false)
    (hmiss2 : (detect_rom_settings_in_dbs (digestFn (fullStreamNorm bytes)) dbs
        AutoDetect.ON).1 = false)
    (hcic : cicLookup (ipl3crc (firstChunkNorm bytes))
        (regionSystemType ((firstChunkNorm bytes).getD 62 0)) = none) :
    (∀ id : List Nat,
        detect_rom_settings_from_first_chunk id ((firstChunkNorm bytes).getD 62 0)
          ((firstChunkNorm bytes).getD 63 0) (ipl3crc (firstChunkNorm bytes)) AutoDetect.ON
          = (1, []))
    ∧ statusEvents (n64_rom_tx digestFn dbs AutoDetect.ON idx bytes).2 = []
    ∧ infoEvents (n64_rom_tx digestFn dbs AutoDetect.ON idx bytes).2 = [Event.info 1] := by
  have hid : ∀ id : List Nat,
      detect_rom_settings_from_first_chunk id ((firstChunkNorm bytes).getD 62 0)
        ((firstChunkNorm bytes).getD 63 0) (ipl3crc (firstChunkNorm bytes)) AutoDetect.ON
        = (1, []) := fun id => cic_unknown_result id _ _ _ hcic
  have hbne : bytes ≠ [] := by
    intro h
    rw [h] at h4
    simp at h4
  have hc := chunkify_cons bytes hbne
  have hid' := hid
  simp only [List.getD_eq_getElem?_getD] at hid'
  refine ⟨hid, ?_, ?_⟩
  · simp only [n64_rom_tx, hc]
    rw [if_neg (by rw [List.length_take]; omega)]
    simp only [firstChunkNorm_eq, headerHex_eq, fileHex_eq]
    simp [hmiss1, hmiss2, dbs_miss_events _ _ _ hmiss1, dbs_miss_events _ _ _ hmiss2,
      hid, hid', apply_ite statusEvents, ite_self, statusEvents_append, statusEvents_txLoopRest,
      statusEvents_nil, statusEvents_cons_setIndex, statusEvents_cons_setDownload,
      statusEvents_cons_progress, statusEvents_cons_processSS, statusEvents_cons_txData,
      statusEvents_cons_fileMount, statusEvents_cons_info]
  · simp only [n64_rom_tx, hc]
    rw [if_neg (by rw [List.length_take]; omega)]
    simp only [firstChunkNorm_eq, headerHex_eq, fileHex_eq]
    simp [hmiss1, hmiss2, dbs_miss_events _ _ _ hmiss1, dbs_miss_events _ _ _ hmiss2,
      hid, hid', apply_ite infoEvents, ite_self, infoEvents_append, infoEvents_txLoopRest,
      infoEvents_nil, infoEvents_cons_setIndex, infoEvents_cons_setDownload,
      infoEvents_cons_progress, infoEvents_cons_processSS, infoEvents_cons_txData,
      infoEvents_cons_fileMount, infoEvents_cons_statusSet, infoEvents_cons_info]

/-- Witness for C3 (amended): 4096 zero bytes, no database sources, checksum
0 unknown, auto-detect enabled. -/
theorem unknownCic_aborts_resolution_witness :
    4096 ≤ z4096.length
    ∧ (detect_rom_settings_in_dbs (constDigest (firstChunkNorm z4096)) []
        AutoDetect.ON).1 = false
    ∧ (detect_rom_settings_in_dbs (constDigest (fullStreamNorm z4096)) []
        AutoDetect.ON).1 = false
    ∧ cicLookup (ipl3crc (firstChunkNorm z4096))
        (regionSystemType ((firstChunkNorm z4096).getD 62 0)) = none
    ∧ statusEvents (n64_rom_tx constDigest [] AutoDetect.ON 0 z4096).2 = []
    ∧ infoEvents (n64_rom_tx constDigest [] AutoDetect.ON 0 z4096).2 = [Event.info 1] := by
  have h4 : 4096 ≤ z4096.length := by rw [z4096_length]
  have hcic : cicLookup (ipl3crc (firstChunkNorm z4096))
      (regionSystemType ((firstChunkNorm z4096).getD 62 0)) = none := by
    rw [firstChunkNorm_z4096, z4096, ipl3crc_replicate_zero,
      getD_replicate_zero]
    decide
  have hmain := unknownCic_aborts_resolution constDigest [] 0 z4096 h4 rfl rfl hcic
  exact ⟨h4, rfl, rfl, hcic, hmain.2.1, hmain.2.2⟩

end N64

namespace N64

/-- C3 counterexample: a concrete ingestion (4096 zero bytes, no database
sources, so both lookups miss; checksum 0 matches no CIC table entry) where
the external auto-detect flag reads OFF: the heuristic resolver returns the
success code 0 — not the unknown-CIC failure 1 — and the ingestion shows
*no* failure notice at all, contradicting the claim that every such
ingestion fails with unknown-CIC and shows the unknown
boot-authentication-type notice. -/
theorem unknownCic_notice_cex :
    detect_rom_settings_from_first_chunk [] 0 0 0 AutoDetect.OFF = (0, [])
    ∧ (detect_rom_settings_in_dbs (constDigest (firstChunkNorm z4096)) []
        AutoDetect.OFF).1 = false
    ∧ (detect_rom_settings_in_dbs (constDigest (fullStreamNorm z4096)) []
        AutoDetect.OFF).1 = false
    ∧ cicLookup (ipl3crc (firstChunkNorm z4096))
        (regionSystemType ((firstChunkNorm z4096).getD 62 0)) = none
    ∧ infoEvents (n64_rom_tx constDigest [] AutoDetect.OFF 0 z4096).2 = []
    ∧ statusEvents (n64_rom_tx constDigest [] AutoDetect.OFF 0 z4096).2 = [] := by
  have hcic : cicLookup (ipl3crc (firstChunkNorm z4096))
      (regionSystemType ((firstChunkNorm z4096).getD 62 0)) = none := by
    rw [firstChunkNorm_z4096, z4096, ipl3crc_replicate_zero, getD_replicate_zero]
    decide
  have hbne : z4096 ≠ [] := by
    intro h
    simpa [z4096_length] using congrArg List.length h
  have hc := chunkify_cons z4096 hbne
  have hoff : ∀ (id : List Nat) (rc rev crc : Nat),
      detect_rom_settings_from_first_chunk id rc rev crc AutoDetect.OFF = (0, []) := by
    intro id rc rev crc
    simp [detect_rom_settings_from_first_chunk]
  refine ⟨hoff _ _ _ _, rfl, rfl, hcic, ?_, ?_⟩
  · simp only [n64_rom_tx, hc]
    rw [if_neg (by rw [List.length_take, z4096_length]; omega)]
    simp [hoff, detect_rom_settings_in_dbs, apply_ite infoEvents, ite_self,
      infoEvents_append, infoEvents_txLoopRest,
      infoEvents_nil, infoEvents_cons_setIndex, infoEvents_cons_setDownload,
      infoEvents_cons_progress, infoEvents_cons_processSS, infoEvents_cons_txData,
      infoEvents_cons_fileMount, infoEvents_cons_statusSet, infoEvents_cons_info]
  · simp only [n64_rom_tx, hc]
    rw [if_neg (by rw [List.length_take, z4096_length]; omega)]
    simp [hoff, detect_rom_settings_in_dbs, apply_ite statusEvents, ite_self,
      statusEvents_append, statusEvents_txLoopRest,
      statusEvents_nil, statusEvents_cons_setIndex, statusEvents_cons_setDownload,
      statusEvents_cons_progress, statusEvents_cons_processSS, statusEvents_cons_txData,
      statusEvents_cons_fileMount, statusEvents_cons_info]

/-- Witness for C1: a source of 4096 zero bytes whose header digest (under a
constant digest function) matches the single database line; the ingestion's
configuration writes are exactly that header lookup's writes. -/
theorem resolution_priority_witness :
    4096 ≤ z4096.length
    ∧ (detect_rom_settings_in_dbs (constDigest (firstChunkNorm z4096)) [[dbLineA]]
        AutoDetect.ON).1 = true
    ∧ statusEvents (n64_rom_tx constDigest [[dbLineA]] AutoDetect.ON 0 z4096).2
        = (detect_rom_settings_in_dbs (constDigest (firstChunkNorm z4096)) [[dbLineA]]
            AutoDetect.ON).2 :=
  ⟨by rw [z4096_length],
   by decide,
   (resolution_priority constDigest [[dbLineA]] AutoDetect.ON 0 z4096
      (by rw [z4096_length])).1 (by decide)⟩

end N64
